import Mathlib

/-!
Verification of the lokup analysis engine (Go) against its natural-language
specification.  The Go source is shallowly embedded: Go `time.Time` values
become integers (seconds), Go `float64` arithmetic becomes exact rational
arithmetic (`ℚ`), Go strings become Lean `String`s (reasoned about through
their character lists), and Go maps are modelled by association lists plus,
where the code iterates over a map, an explicit iteration-order parameter
(Go map iteration order is unspecified).
-/

namespace Lokup

/-- Model of Go `time.Time`: seconds on an absolute timeline (`ℤ`).
`a.Before b` is `a < b`, `a.After b` is `a > b`, `Sub` is subtraction. -/
abbrev GoTime := Int

/-- Go `int(x)` conversion from `float64`: truncation toward zero. -/
def ratTrunc (q : ℚ) : ℤ :=
  if 0 ≤ q then ⌊q⌋ else ⌈q⌉

/-- Go `Time.Hour()` in our seconds model: hour of day, in `0..23`. -/
def goHour (t : GoTime) : ℤ :=
  (Int.fdiv t 3600) % 24

/-- Day bucket of a timestamp, modelling grouping by `Format("2006-01-02")`. -/
def dayKey (t : GoTime) : ℤ :=
  Int.fdiv t 86400

-- ── domain/score.go ───────────────────────────────────────────────

/-- One line of a score breakdown (domain.ScoreBreakdownItem). -/
structure ScoreBreakdownItem where
  label : String
  points : Int
  detail : String
  deriving Repr, DecidableEq

/-- A 0-100 score with its breakdown (domain.Score). -/
structure Score where
  value : Int
  breakdown : List ScoreBreakdownItem
  deriving Repr, DecidableEq

/-- Clamp helper shared by the two Score constructors. -/
def clamp (value : Int) : Int :=
  if value < 0 then 0 else if value > 100 then 100 else value

/-- domain.NewScore: clamps the value to [0,100], empty breakdown. -/
def NewScore (value : Int) : Score :=
  { value := clamp value, breakdown := [] }

/-- domain.NewScoreWithBreakdown: clamps the value, keeps the breakdown. -/
def NewScoreWithBreakdown (value : Int) (breakdown : List ScoreBreakdownItem) : Score :=
  { value := clamp value, breakdown := breakdown }

/-- domain.Score.Grade: A ≥80, B ≥60, C ≥40, D otherwise. -/
def Score.grade (s : Score) : String :=
  if s.value ≥ 80 then "A"
  else if s.value ≥ 60 then "B"
  else if s.value ≥ 40 then "C"
  else "D"

-- ── domain/analysis.go: RiskType, Category, Severity, Risk ───────

/-- domain.Category is a string type in Go. -/
abbrev Category := String

def categoryVelocity : Category := "velocity"
def categoryQuality : Category := "quality"
def categoryTechDebt : Category := "tech_debt"
def categoryHealth : Category := "health"

/-- domain.RiskType is a string type in Go. -/
abbrev RiskType := String

def riskTypeChangeConcentration : RiskType := "change_concentration"
def riskTypeLargeFile : RiskType := "large_file"
def riskTypeOwnership : RiskType := "ownership"
def riskTypeOutdatedDeps : RiskType := "outdated_deps"
def riskTypeLateNight : RiskType := "late_night"
def riskTypeSlowLeadTime : RiskType := "slow_lead_time"
def riskTypeSlowReview : RiskType := "slow_review"
def riskTypeLargePR : RiskType := "large_pr"
def riskTypeLowIssueClose : RiskType := "low_issue_close"
def riskTypeBugFixHigh : RiskType := "bug_fix_high"
def riskTypeLowDeployFreq : RiskType := "low_deploy_freq"
def riskTypeHighChangeFailure : RiskType := "high_change_failure"
def riskTypeSlowRecovery : RiskType := "slow_recovery"
def riskTypeLowFeatureInvestment : RiskType := "low_feature_investment"

/-- domain.RiskType.Category: the category a risk type belongs to,
with Quality as the default fallback.  Mirrors the Go `switch`. -/
def RiskType.category (r : RiskType) : Category :=
  if r = riskTypeSlowLeadTime ∨ r = riskTypeSlowReview ∨
     r = riskTypeLowDeployFreq ∨ r = riskTypeSlowRecovery then
    categoryVelocity
  else if r = riskTypeChangeConcentration ∨ r = riskTypeLargePR ∨
          r = riskTypeLowIssueClose ∨ r = riskTypeBugFixHigh ∨
          r = riskTypeHighChangeFailure then
    categoryQuality
  else if r = riskTypeLargeFile ∨ r = riskTypeOutdatedDeps ∨
          r = riskTypeLowFeatureInvestment then
    categoryTechDebt
  else if r = riskTypeLateNight ∨ r = riskTypeOwnership then
    categoryHealth
  else
    categoryQuality

/-- domain.RiskType.DisplayName: static lookup, falling back to the raw
string.  Mirrors the Go map lookup (the map is a compile-time constant). -/
def RiskType.displayName (r : RiskType) : String :=
  if r = riskTypeChangeConcentration then "変更集中リスク"
  else if r = riskTypeLargeFile then "巨大ファイル"
  else if r = riskTypeOwnership then "属人化"
  else if r = riskTypeOutdatedDeps then "依存の古さ"
  else if r = riskTypeLateNight then "深夜労働"
  else if r = riskTypeSlowLeadTime then "PRリードタイム超過"
  else if r = riskTypeSlowReview then "レビュー待ち超過"
  else if r = riskTypeLargePR then "PRサイズ超過"
  else if r = riskTypeLowIssueClose then "Issueクローズ率低下"
  else if r = riskTypeBugFixHigh then "バグ修正割合過多"
  else if r = riskTypeLowDeployFreq then "デプロイ頻度不足"
  else if r = riskTypeHighChangeFailure then "変更失敗率過多"
  else if r = riskTypeSlowRecovery then "復旧時間超過"
  else if r = riskTypeLowFeatureInvestment then "機能投資不足"
  else r

/-- domain.Severity: Low / Medium / High. -/
inductive Severity where
  | low
  | medium
  | high
  deriving Repr, DecidableEq

/-- domain.Risk: a detected risk. -/
structure Risk where
  type : RiskType
  severity : Severity
  target : String
  description : String
  value : Int
  threshold : Int
  deriving Repr, DecidableEq

/-- domain.NewRisk: constructor leaving Description empty. -/
def NewRisk (riskType : RiskType) (severity : Severity) (target : String)
    (value threshold : Int) : Risk :=
  { type := riskType, severity := severity, target := target,
    description := "", value := value, threshold := threshold }

/-- domain.CategoryScore. -/
structure CategoryScore where
  category : Category
  score : Score
  diagnosis : String
  deriving Repr, DecidableEq

/-- domain.DateRange. -/
structure DateRange where
  from_ : GoTime
  to_ : GoTime
  deriving Repr, DecidableEq

/-- domain.DateRange.Days: `int(To.Sub(From).Hours() / 24)`. -/
def DateRange.days (d : DateRange) : ℤ :=
  ratTrunc (((d.to_ - d.from_ : ℤ) : ℚ) / 3600 / 24)

-- ── features/analyze: raw input entities ─────────────────────────

/-- analyze.Commit (fields the engine reads). -/
structure Commit where
  sha : String
  author : String
  date : GoTime
  message : String
  files : List String
  deriving Repr, DecidableEq

/-- analyze.Contributor. -/
structure Contributor where
  login : String
  contributions : Int
  deriving Repr, DecidableEq

/-- analyze.PullRequest.  `mergedAt = none` models a nil merge timestamp. -/
structure PullRequest where
  number : Int
  title : String
  author : String
  headBranch : String
  createdAt : GoTime
  mergedAt : Option GoTime
  additions : Int
  deletions : Int
  deriving Repr, DecidableEq

/-- analyze.File. -/
structure File where
  path : String
  size : Int
  deriving Repr, DecidableEq

/-- analyze.Dependency. -/
structure Dependency where
  name : String
  version : String
  releasedAt : GoTime
  ageMonths : Int
  packageType : String
  deriving Repr, DecidableEq

/-- analyze.Issue.  `closedAt = none` models a nil close timestamp. -/
structure Issue where
  number : Int
  title : String
  state : String
  labels : List String
  createdAt : GoTime
  closedAt : Option GoTime
  deriving Repr, DecidableEq

/-- analyze.Release. -/
structure Release where
  id : Int
  tagName : String
  name : String
  publishedAt : GoTime
  deriving Repr, DecidableEq

/-- analyze.Review. -/
structure Review where
  id : Int
  author : String
  state : String
  submittedAt : GoTime
  deriving Repr, DecidableEq

-- ── models.go: lead time and PR classification ───────────────────

/-- analyze.PullRequest.LeadTime: days from creation to merge, `-1`
when the PR is unmerged.  Times are seconds, hence `/3600/24`. -/
def PullRequest.leadTime (pr : PullRequest) : ℚ :=
  match pr.mergedAt with
  | none => -1
  | some m => ((m - pr.createdAt : ℤ) : ℚ) / 3600 / 24

/-- Prefix test on character lists (model of `strings.HasPrefix`). -/
def hasPref : List Char → List Char → Bool
  | [], _ => true
  | _ :: _, [] => false
  | p :: ps, c :: cs => p == c && hasPref ps cs

/-- Model of `strings.ToLower` on the branch name (ASCII case folding;
the classification vocabularies are all ASCII). -/
def lowerChars (s : String) : List Char :=
  s.data.map Char.toLower

/-- analyze.PullRequest.IsBugFix: branch starts with fix/, bugfix/ or
hotfix/ after lowercasing. -/
def PullRequest.isBugFix (pr : PullRequest) : Bool :=
  hasPref "fix/".data (lowerChars pr.headBranch) ||
  hasPref "bugfix/".data (lowerChars pr.headBranch) ||
  hasPref "hotfix/".data (lowerChars pr.headBranch)

/-- analyze.PullRequest.IsFeature: branch starts with feature/ or feat/. -/
def PullRequest.isFeature (pr : PullRequest) : Bool :=
  hasPref "feature/".data (lowerChars pr.headBranch) ||
  hasPref "feat/".data (lowerChars pr.headBranch)

/-- analyze.PullRequest.IsRefactor: branch starts with refactor/, chore/,
debt/, ci/ or docs/. -/
def PullRequest.isRefactor (pr : PullRequest) : Bool :=
  hasPref "refactor/".data (lowerChars pr.headBranch) ||
  hasPref "chore/".data (lowerChars pr.headBranch) ||
  hasPref "debt/".data (lowerChars pr.headBranch) ||
  hasPref "ci/".data (lowerChars pr.headBranch) ||
  hasPref "docs/".data (lowerChars pr.headBranch)

/-- The four PR classes of the breakdown. -/
inductive PRClass where
  | feature
  | bugfix
  | refactor
  | other
  deriving Repr, DecidableEq

/-- PR classification in the evaluation order of
`calculatePRBreakdown` (feature, then bugfix, then refactor). -/
def classifyPR (pr : PullRequest) : PRClass :=
  if pr.isFeature then .feature
  else if pr.isBugFix then .bugfix
  else if pr.isRefactor then .refactor
  else .other

-- ── dora.go ──────────────────────────────────────────────────────

/-- analyze.doraDeployFreqRating. -/
def doraDeployFreqRating (freq : ℚ) : String :=
  if freq ≥ 30 then "Elite"
  else if freq ≥ 4 then "High"
  else if freq ≥ 1 then "Medium"
  else "Low"

/-- analyze.doraChangeFailRating. -/
def doraChangeFailRating (cfr : ℚ) : String :=
  if cfr ≤ 15 then "Elite"
  else if cfr ≤ 30 then "High"
  else if cfr ≤ 45 then "Medium"
  else "Low"

/-- analyze.doraMTTRRating. -/
def doraMTTRRating (mttr : ℚ) : String :=
  if mttr < 1 then "Elite"
  else if mttr < 24 then "High"
  else if mttr < 168 then "Medium"
  else "Low"

/-- Count of releases published inside the period (inclusive bounds),
the loop body of `calculateDeployFrequency` and
`calculateChangeFailureRate`. -/
def inPeriodReleaseCount (releases : List Release) (period : DateRange) : ℕ :=
  (releases.filter fun r =>
    ¬ r.publishedAt < period.from_ ∧ ¬ r.publishedAt > period.to_).length

/-- analyze.calculateDeployFrequency: frequency per 30-day month and
DORA rating.  Empty release list short-circuits to `(0, "N/A")`. -/
def calculateDeployFrequency (releases : List Release) (period : DateRange) :
    ℚ × String :=
  if releases = [] then (0, "N/A")
  else
    let count : ℤ := inPeriodReleaseCount releases period
    let days : ℤ := if period.days = 0 then 1 else period.days
    let freq : ℚ := (count : ℚ) / ((days : ℚ) / 30)
    (freq, doraDeployFreqRating freq)

/-- analyze.countRevertCommits: commits whose message starts with
`"Revert "`. -/
def countRevertCommits (commits : List Commit) : ℕ :=
  (commits.filter fun c => hasPref "Revert ".data c.message.data).length

-- ── trends.go: buildTrendDelta ───────────────────────────────────

/-- domain.TrendDelta. -/
structure TrendDelta where
  metricName : String
  currentValue : ℚ
  previousValue : ℚ
  deltaPct : ℚ
  direction : String
  deriving Repr, DecidableEq

/-- analyze.buildTrendDelta: percentage delta (0 when previous ≤ 0)
and direction with a ±5% "same" band. -/
def buildTrendDelta (name : String) (current previous : ℚ) : TrendDelta :=
  let deltaPct : ℚ := if previous > 0 then (current - previous) / previous * 100 else 0
  let direction : String :=
    if |deltaPct| > 5 then (if deltaPct > 0 then "up" else "down") else "same"
  { metricName := name, currentValue := current, previousValue := previous,
    deltaPct := deltaPct, direction := direction }

-- ── risk_detector.go: thresholds ─────────────────────────────────

def changeConcentrationWarning : ℕ := 10
def changeConcentrationCritical : ℕ := 20
def ownershipThreshold : ℚ := 8/10
def lateNightStartHour : ℤ := 22
def lateNightEndHour : ℤ := 5
def lateNightRateThreshold : ℚ := 3/10
def largeFileWarningBytes : ℤ := 50 * 1024
def largeFileCriticalBytes : ℤ := 100 * 1024
def outdatedDepWarningMonths : ℤ := 24
def outdatedDepCriticalMonths : ℤ := 36
def leadTimeThresholdDays : ℚ := 7
def reviewWaitThresholdHours : ℚ := 48
def prSizeThresholdLines : ℤ := 500
def issueCloseRateThresholdPct : ℚ := 50
def bugFixRatioThresholdPct : ℚ := 50
def deployFreqThresholdPerMonth : ℚ := 1
def changeFailureThresholdPct : ℚ := 30
def mttrThresholdHours : ℚ := 24
def featureInvestmentThresholdPct : ℚ := 30
def baseScore : ℤ := 100
def penaltyHigh : ℤ := -15
def penaltyMedium : ℤ := -10
def penaltyLow : ℤ := -5

-- ── formatting helpers (helpers.go / risk_detector.go) ───────────

/-- Go integer division (truncation toward zero). -/
def goDiv (a b : Int) : Int := Int.tdiv a b

/-- Go integer remainder (sign of the dividend). -/
def goMod (a b : Int) : Int := Int.tmod a b

/-- Rounding model for Go's `%.1f` formatting: nearest tenth,
ties to even. -/
def roundHalfEven (x : ℚ) : ℤ :=
  let f := ⌊x⌋
  if x - f < 1/2 then f
  else if x - f > 1/2 then f + 1
  else if f % 2 = 0 then f else f + 1

/-- Model of `fmt.Sprintf("%.1f", q)`. -/
def goFmt1 (q : ℚ) : String :=
  let n := roundHalfEven (q * 10)
  let sign := if n < 0 then "-" else ""
  sign ++ toString (n.natAbs / 10) ++ "." ++ toString (n.natAbs % 10)

/-- analyze.formatAge: months rendered as "X年Yヶ月". -/
def formatAge (months : Int) : String :=
  let years := goDiv months 12
  let remainingMonths := goMod months 12
  if years = 0 then toString remainingMonths ++ "ヶ月"
  else if remainingMonths = 0 then toString years ++ "年"
  else toString years ++ "年" ++ toString remainingMonths ++ "ヶ月"

/-- Severity-to-penalty step of the category scoring switch. -/
def penalty : Severity → ℤ
  | .high => penaltyHigh
  | .medium => penaltyMedium
  | .low => penaltyLow

-- ── helpers.go: late-night counting ──────────────────────────────

/-- analyze.countLateNightCommits: commits with hour ≥22 or <5. -/
def countLateNightCommits (commits : List Commit) : ℕ :=
  (commits.filter fun c =>
    goHour c.date ≥ lateNightStartHour ∨ goHour c.date < lateNightEndHour).length

-- ── risk_detector.go: data-source detectors ──────────────────────

/-- Number of times `file` is recorded as changed across `commits`
(the value stored in the Go `fileChanges` map). -/
def fileChangeCount (commits : List Commit) (file : String) : ℕ :=
  (commits.map fun c => c.files.count file).sum

/-- Key set of the Go `fileChanges` map: every file appearing in some
commit, first-occurrence order, no duplicates. -/
def changedFiles (commits : List Commit) : List String :=
  (commits.flatMap fun c => c.files).dedup

/-- An admissible iteration order of the `fileChanges` map: any
enumeration of its key set (Go map iteration order is unspecified). -/
def IsMapOrder (commits : List Commit) (ord : List String) : Prop :=
  ord.Perm (changedFiles commits)

/-- analyze.detectChangeConcentration, with the unspecified map
iteration order made explicit as `ord`. -/
def detectChangeConcentration (commits : List Commit) (ord : List String) :
    List Risk :=
  ord.flatMap fun file =>
    let count := fileChangeCount commits file
    if count ≥ changeConcentrationCritical then
      [NewRisk riskTypeChangeConcentration .high file count
        changeConcentrationCritical]
    else if count ≥ changeConcentrationWarning then
      [NewRisk riskTypeChangeConcentration .medium file count
        changeConcentrationWarning]
    else []

/-- analyze.detectOwnershipRisk. -/
def detectOwnershipRisk (contributors : List Contributor) : List Risk :=
  match contributors with
  | [] => []
  | top :: _ =>
    let totalCommits : ℤ := (contributors.map Contributor.contributions).sum
    if totalCommits = 0 then []
    else
      let ratio : ℚ := (top.contributions : ℚ) / (totalCommits : ℚ)
      if ratio ≥ ownershipThreshold then
        [{ type := riskTypeOwnership, severity := .medium,
           target := top.login,
           description := "1人のコントリビューターがコミットの大部分を占めています",
           value := ratTrunc (ratio * 100),
           threshold := ratTrunc (ownershipThreshold * 100) }]
      else []

/-- analyze.detectLateNightRisk. -/
def detectLateNightRisk (commits : List Commit) : List Risk :=
  if commits = [] then []
  else
    let ratio : ℚ := (countLateNightCommits commits : ℚ) / (commits.length : ℚ)
    if ratio ≥ lateNightRateThreshold then
      [{ type := riskTypeLateNight, severity := .medium,
         target := "リポジトリ全体",
         description := "深夜のコミットが多いです",
         value := ratTrunc (ratio * 100),
         threshold := ratTrunc (lateNightRateThreshold * 100) }]
    else []

/-- domain.LargeFile. -/
structure LargeFile where
  path : String
  sizeKB : Int
  severity : Severity
  deriving Repr, DecidableEq

/-- analyze.detectLargeFiles: at most one aggregated risk per severity
bucket, plus the full drill-down list. -/
def detectLargeFiles (files : List File) : List Risk × List LargeFile :=
  let highCount := (files.filter fun f => f.size ≥ largeFileCriticalBytes).length
  let mediumCount := (files.filter fun f =>
    ¬ f.size ≥ largeFileCriticalBytes ∧ f.size ≥ largeFileWarningBytes).length
  let largeFiles := files.filterMap fun f =>
    if f.size ≥ largeFileCriticalBytes then
      some { path := f.path, sizeKB := goDiv f.size 1024, severity := Severity.high }
    else if f.size ≥ largeFileWarningBytes then
      some { path := f.path, sizeKB := goDiv f.size 1024, severity := Severity.medium }
    else none
  let risks :=
    (if highCount > 0 then
      [{ type := riskTypeLargeFile, severity := Severity.high,
         target := toString highCount ++ "件",
         description := toString (goDiv largeFileCriticalBytes 1024) ++
           "KB以上の巨大ファイルがあります",
         value := highCount, threshold := goDiv largeFileCriticalBytes 1024 }]
     else []) ++
    (if mediumCount > 0 then
      [{ type := riskTypeLargeFile, severity := Severity.medium,
         target := toString mediumCount ++ "件",
         description := toString (goDiv largeFileWarningBytes 1024) ++
           "KB以上の大きいファイルがあります",
         value := mediumCount, threshold := goDiv largeFileWarningBytes 1024 }]
     else [])
  (risks, largeFiles)

/-- domain.OutdatedDep. -/
structure OutdatedDep where
  name : String
  version : String
  age : String
  severity : Severity
  deriving Repr, DecidableEq

/-- analyze.detectOutdatedDeps: aggregated risks per severity bucket
plus the full drill-down list. -/
def detectOutdatedDeps (dependencies : List Dependency) :
    List Risk × List OutdatedDep :=
  let highCount := (dependencies.filter fun d =>
    d.ageMonths ≥ outdatedDepCriticalMonths).length
  let mediumCount := (dependencies.filter fun d =>
    ¬ d.ageMonths ≥ outdatedDepCriticalMonths ∧
      d.ageMonths ≥ outdatedDepWarningMonths).length
  let outdatedDeps := dependencies.filterMap fun d =>
    if d.ageMonths ≥ outdatedDepCriticalMonths then
      some { name := d.name, version := d.version,
             age := formatAge d.ageMonths, severity := Severity.high }
    else if d.ageMonths ≥ outdatedDepWarningMonths then
      some { name := d.name, version := d.version,
             age := formatAge d.ageMonths, severity := Severity.medium }
    else none
  let risks :=
    (if highCount > 0 then
      [{ type := riskTypeOutdatedDeps, severity := Severity.high,
         target := toString highCount ++ "件",
         description := toString (goDiv outdatedDepCriticalMonths 12) ++
           "年以上前の古い依存があります",
         value := highCount, threshold := outdatedDepCriticalMonths }]
     else []) ++
    (if mediumCount > 0 then
      [{ type := riskTypeOutdatedDeps, severity := Severity.medium,
         target := toString mediumCount ++ "件",
         description := toString (goDiv outdatedDepWarningMonths 12) ++
           "年以上前の古い依存があります",
         value := mediumCount, threshold := outdatedDepWarningMonths }]
     else [])
  (risks, outdatedDeps)

/-- analyze.detectRisks: concatenation of the data-source detectors,
returning risks and the large-file drill-down list. -/
def detectRisks (commits : List Commit) (contributors : List Contributor)
    (files : List File) (ord : List String) : List Risk × List LargeFile :=
  (detectChangeConcentration commits ord ++
     detectOwnershipRisk contributors ++
     detectLateNightRisk commits ++
     (detectLargeFiles files).1,
   (detectLargeFiles files).2)

-- ── domain.Metrics ───────────────────────────────────────────────

/-- domain.Metrics: the flat record of derived metrics. -/
structure Metrics where
  totalCommits : ℤ
  featureAdditionRate : ℚ
  avgLeadTime : ℚ
  avgReviewWaitTime : ℚ
  openPRCount : ℤ
  openIssueCount : ℤ
  bugFixRatio : ℚ
  reworkRate : ℚ
  avgPRSize : ℤ
  issueCloseRate : ℚ
  issuesCreated : ℤ
  issuesClosed : ℤ
  featurePRCount : ℤ
  bugFixPRCount : ℤ
  otherPRCount : ℤ
  deployFrequency : ℚ
  deployFreqRating : String
  changeFailureRate : ℚ
  changeFailRating : String
  mttr : ℚ
  mttrRating : String
  refactorPRCount : ℤ
  featureRatio : ℚ
  refactorRatio : ℚ
  revertCommitCount : ℤ
  revertRate : ℚ
  totalFiles : ℤ
  totalContributors : ℤ
  lateNightCommitRate : ℚ

-- ── risk_detector.go: metric-based detector ──────────────────────

/-- analyze.detectMetricRisks: one threshold check per metric, in the
source order. -/
def detectMetricRisks (metrics : Metrics) : List Risk :=
  (if metrics.avgLeadTime > leadTimeThresholdDays then
    [{ type := riskTypeSlowLeadTime, severity := Severity.medium,
       target := "リポジトリ全体",
       description := "PRリードタイムが平均" ++ goFmt1 metrics.avgLeadTime ++ "日です",
       value := ratTrunc (metrics.avgLeadTime * 10),
       threshold := ratTrunc leadTimeThresholdDays }]
   else []) ++
  (if metrics.avgReviewWaitTime > reviewWaitThresholdHours then
    [{ type := riskTypeSlowReview, severity := Severity.medium,
       target := "リポジトリ全体",
       description := "レビュー待ち時間が平均" ++ goFmt1 metrics.avgReviewWaitTime ++ "時間です",
       value := ratTrunc (metrics.avgReviewWaitTime * 10),
       threshold := ratTrunc reviewWaitThresholdHours }]
   else []) ++
  (if metrics.avgPRSize > prSizeThresholdLines then
    [{ type := riskTypeLargePR, severity := Severity.medium,
       target := "リポジトリ全体",
       description := "PRの平均サイズが" ++ toString metrics.avgPRSize ++ "行です",
       value := metrics.avgPRSize, threshold := prSizeThresholdLines }]
   else []) ++
  (if metrics.issuesCreated > 0 ∧ metrics.issueCloseRate < issueCloseRateThresholdPct then
    [{ type := riskTypeLowIssueClose, severity := Severity.medium,
       target := "リポジトリ全体",
       description := "Issueクローズ率が" ++ goFmt1 metrics.issueCloseRate ++ "%です",
       value := ratTrunc metrics.issueCloseRate,
       threshold := ratTrunc issueCloseRateThresholdPct }]
   else []) ++
  (if metrics.bugFixRatio > bugFixRatioThresholdPct then
    [{ type := riskTypeBugFixHigh, severity := Severity.medium,
       target := "リポジトリ全体",
       description := "バグ修正PRの割合が" ++ goFmt1 metrics.bugFixRatio ++ "%です",
       value := ratTrunc metrics.bugFixRatio,
       threshold := ratTrunc bugFixRatioThresholdPct }]
   else []) ++
  (if metrics.deployFrequency > 0 ∧ metrics.deployFrequency < deployFreqThresholdPerMonth then
    [{ type := riskTypeLowDeployFreq, severity := Severity.medium,
       target := "リポジトリ全体",
       description := "デプロイ頻度が月" ++ goFmt1 metrics.deployFrequency ++ "回です",
       value := ratTrunc (metrics.deployFrequency * 10),
       threshold := ratTrunc (deployFreqThresholdPerMonth * 10) }]
   else []) ++
  (if metrics.changeFailureRate > changeFailureThresholdPct then
    [{ type := riskTypeHighChangeFailure, severity := Severity.high,
       target := "リポジトリ全体",
       description := "変更失敗率が" ++ goFmt1 metrics.changeFailureRate ++ "%です",
       value := ratTrunc metrics.changeFailureRate,
       threshold := ratTrunc changeFailureThresholdPct }]
   else []) ++
  (if metrics.mttr > mttrThresholdHours then
    [{ type := riskTypeSlowRecovery, severity := Severity.medium,
       target := "リポジトリ全体",
       description := "平均復旧時間が" ++ goFmt1 metrics.mttr ++ "時間です",
       value := ratTrunc (metrics.mttr * 10),
       threshold := ratTrunc (mttrThresholdHours * 10) }]
   else []) ++
  (if metrics.featurePRCount + metrics.bugFixPRCount + metrics.refactorPRCount +
        metrics.otherPRCount > 0 ∧
      metrics.featureRatio < featureInvestmentThresholdPct then
    [{ type := riskTypeLowFeatureInvestment, severity := Severity.medium,
       target := "リポジトリ全体",
       description := "機能追加PRの割合が" ++ goFmt1 metrics.featureRatio ++ "%です",
       value := ratTrunc metrics.featureRatio,
       threshold := ratTrunc featureInvestmentThresholdPct }]
   else [])

-- ── metrics_calculator.go ────────────────────────────────────────

/-- analyze.prBreakdown. -/
structure PrBreakdown where
  feature : ℕ
  bugFix : ℕ
  refactor : ℕ
  other : ℕ
  bugFixRatio : ℚ
  featureRatio : ℚ
  refactorRatio : ℚ
  deriving Repr, DecidableEq

/-- analyze.calculatePRBreakdown: classify merged PRs by the
feature / bugfix / refactor / other chain and compute percentage shares. -/
def calculatePRBreakdown (pullRequests : List PullRequest) : PrBreakdown :=
  let merged := pullRequests.filter fun pr => pr.mergedAt.isSome
  let feature := (merged.filter fun pr => classifyPR pr = .feature).length
  let bugFix := (merged.filter fun pr => classifyPR pr = .bugfix).length
  let refactor := (merged.filter fun pr => classifyPR pr = .refactor).length
  let other := (merged.filter fun pr => classifyPR pr = .other).length
  let total := feature + bugFix + refactor + other
  if total > 0 then
    { feature := feature, bugFix := bugFix, refactor := refactor, other := other,
      bugFixRatio := (bugFix : ℚ) / (total : ℚ) * 100,
      featureRatio := (feature : ℚ) / (total : ℚ) * 100,
      refactorRatio := (refactor : ℚ) / (total : ℚ) * 100 }
  else
    { feature := feature, bugFix := bugFix, refactor := refactor, other := other,
      bugFixRatio := 0, featureRatio := 0, refactorRatio := 0 }

/-- analyze.calculateAvgLeadTime: mean lead time over merged PRs
(those with non-negative lead time), 0 when there are none. -/
def calculateAvgLeadTime (pullRequests : List PullRequest) : ℚ :=
  let leadTimes := (pullRequests.map PullRequest.leadTime).filter fun t => t ≥ 0
  if leadTimes.length = 0 then 0
  else leadTimes.sum / (leadTimes.length : ℚ)

/-- analyze.issueStats. -/
structure IssueStats where
  created : ℕ
  closed : ℕ
  closeRate : ℚ
  deriving Repr, DecidableEq

/-- Membership of a timestamp in a period, inclusive on both ends
(the `!Before(From) && !After(To)` pattern). -/
def inPeriod (t : GoTime) (period : DateRange) : Prop :=
  ¬ t < period.from_ ∧ ¬ t > period.to_

instance (t : GoTime) (period : DateRange) : Decidable (inPeriod t period) := by
  unfold inPeriod; infer_instance

/-- analyze.calculateIssueStats: created/closed counts windowed to the
period, close rate in percent (0 when no issue was created). -/
def calculateIssueStats (issues : List Issue) (period : DateRange) : IssueStats :=
  let created := (issues.filter fun i => inPeriod i.createdAt period).length
  let closed := (issues.filter fun i =>
    match i.closedAt with
    | some t => inPeriod t period
    | none => False).length
  { created := created, closed := closed,
    closeRate := if created > 0 then (closed : ℚ) / (created : ℚ) * 100 else 0 }

/-- Issue label test of dora.go: has a bug / incident / hotfix label,
case-insensitively. -/
def hasFailureLabel (i : Issue) : Bool :=
  i.labels.any fun l =>
    let lower : String := ⟨l.data.map Char.toLower⟩
    lower = "bug" ∨ lower = "incident" ∨ lower = "hotfix"

/-- analyze.calculateChangeFailureRate. -/
def calculateChangeFailureRate (issues : List Issue) (releases : List Release)
    (commits : List Commit) (period : DateRange) : ℚ × String :=
  let deployCount := inPeriodReleaseCount releases period
  if deployCount = 0 then (0, "N/A")
  else
    let failureCount :=
      (issues.filter fun i => inPeriod i.createdAt period ∧ hasFailureLabel i).length +
      countRevertCommits commits
    let cfr : ℚ := (failureCount : ℚ) / (deployCount : ℚ) * 100
    (cfr, doraChangeFailRating cfr)

/-- analyze.calculateMTTR: mean hours from creation to closure over
in-period bug-labeled issues with non-negative closure delay. -/
def calculateMTTR (issues : List Issue) (period : DateRange) : ℚ × String :=
  let durations := issues.filterMap fun i =>
    match i.closedAt with
    | none => none
    | some closedAt =>
      if ¬ inPeriod i.createdAt period then none
      else if ¬ hasFailureLabel i then none
      else
        let hours : ℚ := ((closedAt - i.createdAt : ℤ) : ℚ) / 3600
        if hours ≥ 0 then some hours else none
  if durations.length = 0 then (0, "N/A")
  else
    let mttr := durations.sum / (durations.length : ℚ)
    (mttr, doraMTTRRating mttr)

/-- analyze.metricsInput. -/
structure MetricsInput where
  commits : List Commit
  contributors : List Contributor
  closedPRs : List PullRequest
  openPRs : List PullRequest
  allIssues : List Issue
  openIssues : List Issue
  files : List File
  releases : List Release
  period : DateRange
  avgReviewWaitTime : ℚ
  avgPRSize : ℤ

/-- analyze.calculateMetrics: assembles the Metrics record. -/
def calculateMetrics (input : MetricsInput) : Metrics :=
  let days : ℤ := if input.period.days = 0 then 1 else input.period.days
  let lateNightRate : ℚ :=
    if input.commits.length > 0 then
      (countLateNightCommits input.commits : ℚ) / (input.commits.length : ℚ) * 100
    else 0
  let avgLeadTime := calculateAvgLeadTime input.closedPRs
  let prb := calculatePRBreakdown input.closedPRs
  let is_ := calculateIssueStats input.allIssues input.period
  let (deployFreq, deployRating) := calculateDeployFrequency input.releases input.period
  let (cfr, cfrRating) :=
    calculateChangeFailureRate input.allIssues input.releases input.commits input.period
  let (mttr, mttrRating) := calculateMTTR input.allIssues input.period
  let revertCount := countRevertCommits input.commits
  let revertRate : ℚ :=
    if input.commits.length > 0 then
      (revertCount : ℚ) / (input.commits.length : ℚ) * 100
    else 0
  { totalCommits := input.commits.length,
    featureAdditionRate := (input.commits.length : ℚ) / (days : ℚ),
    avgLeadTime := avgLeadTime,
    avgReviewWaitTime := input.avgReviewWaitTime,
    openPRCount := input.openPRs.length,
    openIssueCount := input.openIssues.length,
    bugFixRatio := prb.bugFixRatio,
    reworkRate := revertRate,
    avgPRSize := input.avgPRSize,
    issueCloseRate := is_.closeRate,
    issuesCreated := is_.created,
    issuesClosed := is_.closed,
    featurePRCount := prb.feature,
    bugFixPRCount := prb.bugFix,
    otherPRCount := prb.other,
    deployFrequency := deployFreq,
    deployFreqRating := deployRating,
    changeFailureRate := cfr,
    changeFailRating := cfrRating,
    mttr := mttr,
    mttrRating := mttrRating,
    refactorPRCount := prb.refactor,
    featureRatio := prb.featureRatio,
    refactorRatio := prb.refactorRatio,
    revertCommitCount := revertCount,
    revertRate := revertRate,
    totalFiles := input.files.length,
    totalContributors := input.contributors.length,
    lateNightCommitRate := lateNightRate }

-- ── helpers.go: PR details and aggregations ──────────────────────

/-- domain.PRDetail. -/
structure PRDetail where
  number : Int
  title : String
  author : String
  leadTimeDays : ℚ
  size : ℤ
  additions : ℤ
  deletions : ℤ
  reviewWaitHours : ℚ
  deriving Repr, DecidableEq

/-- Upper bound on PR details fetched (analyze.maxPRDetailsCount). -/
def maxPRDetailsCount : ℕ := 20

/-- Earliest review, first-seen on ties (the inner loop of
`buildPRDetails`). -/
def firstReview (r0 : Review) (reviews : List Review) : Review :=
  reviews.foldl (fun acc r => if r.submittedAt < acc.submittedAt then r else acc) r0

/-- Loop of analyze.buildPRDetails.  `getPRDetail`/`getPRReviews` model
the data-acquisition calls (`none` = the call failed). -/
def buildPRDetailsLoop (getPRDetail : Int → Option PullRequest)
    (getPRReviews : Int → Option (List Review)) :
    List PullRequest → ℕ → List PRDetail
  | [], _ => []
  | pr :: rest, count =>
    if pr.mergedAt.isNone then
      buildPRDetailsLoop getPRDetail getPRReviews rest count
    else if count ≥ maxPRDetailsCount then []
    else
      let leadTime := pr.leadTime
      let (size, additions, deletions) :=
        match getPRDetail pr.number with
        | some d => (d.additions + d.deletions, d.additions, d.deletions)
        | none => (0, 0, 0)
      let reviewWaitHours : ℚ :=
        match getPRReviews pr.number with
        | some (r0 :: rs) =>
          let fr := firstReview r0 (r0 :: rs)
          let waitTime : ℚ := ((fr.submittedAt - pr.createdAt : ℤ) : ℚ) / 3600
          if waitTime ≥ 0 then waitTime else 0
        | some [] => 0
        | none => 0
      { number := pr.number, title := pr.title, author := pr.author,
        leadTimeDays := leadTime, size := size, additions := additions,
        deletions := deletions, reviewWaitHours := reviewWaitHours } ::
        buildPRDetailsLoop getPRDetail getPRReviews rest (count + 1)

/-- analyze.buildPRDetails. -/
def buildPRDetails (getPRDetail : Int → Option PullRequest)
    (getPRReviews : Int → Option (List Review))
    (pullRequests : List PullRequest) : List PRDetail :=
  buildPRDetailsLoop getPRDetail getPRReviews pullRequests 0

/-- analyze.calcAvgPRSize: integer mean over positive sizes. -/
def calcAvgPRSize (details : List PRDetail) : ℤ :=
  let positive := details.filter fun d => d.size > 0
  if positive.length = 0 then 0
  else goDiv (positive.map PRDetail.size).sum positive.length

/-- analyze.calcAvgReviewWait: mean over positive wait times. -/
def calcAvgReviewWait (details : List PRDetail) : ℚ :=
  let positive := details.filter fun d => d.reviewWaitHours > 0
  if positive.length = 0 then 0
  else (positive.map PRDetail.reviewWaitHours).sum / (positive.length : ℚ)

/-- domain.ContributorDetail. -/
structure ContributorDetail where
  name : String
  commits : ℤ
  ratio : ℚ
  deriving Repr, DecidableEq

/-- analyze.buildContributorDetails. -/
def buildContributorDetails (contributors : List Contributor) :
    List ContributorDetail :=
  let totalCommits : ℤ := (contributors.map Contributor.contributions).sum
  contributors.map fun c =>
    { name := c.login, commits := c.contributions,
      ratio := if totalCommits > 0 then
          (c.contributions : ℚ) / (totalCommits : ℚ) * 100
        else 0 }

/-- analyze.aggregateHourlyCommits: 24-slot histogram by hour. -/
def aggregateHourlyCommits (commits : List Commit) : List ℕ :=
  (List.range 24).map fun h =>
    (commits.filter fun c => goHour c.date = (h : ℤ)).length

/-- domain.DailyCommit. -/
structure DailyCommit where
  date : GoTime
  count : ℕ
  deriving Repr, DecidableEq

/-- Day-stepping loop of analyze.aggregateDailyCommits (`AddDate(0,0,1)`
is one day in the seconds model). -/
def dailyCommitsLoop (commits : List Commit) (to_ : GoTime) (current : GoTime) :
    List DailyCommit :=
  if h : current ≤ to_ then
    { date := current,
      count := (commits.filter fun c => dayKey c.date = dayKey current).length } ::
      dailyCommitsLoop commits to_ (current + 86400)
  else []
  termination_by (to_ + 86400 - current).toNat
  decreasing_by simp_wf; exact lt_of_le_of_lt h (lt_add_of_pos_right to_ (by norm_num))

/-- analyze.aggregateDailyCommits: one entry per day of the period,
zero count for days without commits. -/
def aggregateDailyCommits (commits : List Commit) (period : DateRange) :
    List DailyCommit :=
  dailyCommitsLoop commits period.to_ period.from_

-- ── trends.go: calculateTrends ───────────────────────────────────

/-- analyze.calculateTrends: commit count, commit frequency and issue
close rate compared against the previous period. -/
def calculateTrends (current : Metrics) (prevCommits : List Commit)
    (prevIssues : List Issue) (prevPeriod : DateRange) : List TrendDelta :=
  let prevCommitCount := prevCommits.length
  let prevDays : ℤ := if prevPeriod.days = 0 then 1 else prevPeriod.days
  let prevRate : ℚ := (prevCommitCount : ℚ) / (prevDays : ℚ)
  let prevIS := calculateIssueStats prevIssues prevPeriod
  [buildTrendDelta "コミット数" (current.totalCommits : ℚ) (prevCommitCount : ℚ),
   buildTrendDelta "コミット頻度" current.featureAdditionRate prevRate,
   buildTrendDelta "Issueクローズ率" current.issueCloseRate prevIS.closeRate]

-- ── risk_detector.go: category scoring and diagnosis ─────────────

/-- Fixed diagnosis text per worst-risk type (the switch in
analyze.generateDiagnosis). -/
def diagnosisText (t : RiskType) : String :=
  if t = riskTypeSlowLeadTime then "PRリードタイムが長く、開発速度が低下しています"
  else if t = riskTypeSlowReview then "レビュー待ち時間が長く、フィードバックが遅延しています"
  else if t = riskTypeChangeConcentration then "特定ファイルへの変更が集中しており、品質リスクがあります"
  else if t = riskTypeLargePR then "PRサイズが大きく、レビューの質が低下する可能性があります"
  else if t = riskTypeLowIssueClose then "Issueの消化が追いつかず、負債が蓄積しています"
  else if t = riskTypeBugFixHigh then "バグ修正の割合が高く、品質に課題があります"
  else if t = riskTypeLargeFile then "巨大ファイルが多数あり、保守性に課題があります"
  else if t = riskTypeOutdatedDeps then "古い依存パッケージがあり、セキュリティリスクがあります"
  else if t = riskTypeLateNight then "深夜作業が多く、チームの持続可能性に懸念があります"
  else if t = riskTypeOwnership then "知識が特定の人に偏っており、属人化リスクがあります"
  else if t = riskTypeLowDeployFreq then "デプロイ頻度が低く、価値提供のスピードが遅れています"
  else if t = riskTypeHighChangeFailure then "変更失敗率が高く、リリース品質に課題があります"
  else if t = riskTypeSlowRecovery then "障害からの復旧時間が長く、運用に課題があります"
  else if t = riskTypeLowFeatureInvestment then "機能追加への投資比率が低く、負債対応に追われています"
  else "改善の余地があります"

/-- analyze.generateDiagnosis: generic good-state text for grade A or
no worst risk, else the fixed lookup by worst-risk type. -/
def generateDiagnosis (score : Score) (worstRisk : Option Risk) : String :=
  if score.grade = "A" then "良好な状態です"
  else
    match worstRisk with
    | none => "良好な状態です"
    | some r => diagnosisText r.type

/-- analyze.formatRiskDetail. -/
def formatRiskDetail (r : Risk) : String :=
  if r.value = 0 ∧ r.threshold = 0 then ""
  else if r.type = riskTypeLateNight then
    "22-5時のコミットが" ++ toString r.value ++ "%、基準" ++ toString r.threshold ++ "%以下"
  else if r.type = riskTypeOwnership then
    "1人で" ++ toString r.value ++ "%のコミット、基準" ++ toString r.threshold ++ "%以下"
  else if r.type = riskTypeChangeConcentration then
    toString r.value ++ "回変更、基準" ++ toString r.threshold ++ "回以下"
  else if r.type = riskTypeLargeFile then
    toString r.value ++ "件、" ++ toString r.threshold ++ "KB以上"
  else if r.type = riskTypeOutdatedDeps then
    toString r.value ++ "件、" ++ toString (goDiv r.threshold 12) ++ "年以上前"
  else if r.type = riskTypeSlowLeadTime then
    "平均" ++ goFmt1 ((r.value : ℚ) / 10) ++ "日、基準" ++ toString r.threshold ++ "日以下"
  else if r.type = riskTypeSlowReview then
    "平均" ++ goFmt1 ((r.value : ℚ) / 10) ++ "時間、基準" ++ toString r.threshold ++ "時間以下"
  else if r.type = riskTypeLargePR then
    "平均" ++ toString r.value ++ "行、基準" ++ toString r.threshold ++ "行以下"
  else if r.type = riskTypeLowIssueClose then
    "クローズ率" ++ toString r.value ++ "%、基準" ++ toString r.threshold ++ "%以上"
  else if r.type = riskTypeBugFixHigh then
    "バグ修正" ++ toString r.value ++ "%、基準" ++ toString r.threshold ++ "%以下"
  else if r.type = riskTypeLowDeployFreq then
    "月" ++ goFmt1 ((r.value : ℚ) / 10) ++ "回、基準月" ++ goFmt1 ((r.threshold : ℚ) / 10) ++ "回以上"
  else if r.type = riskTypeHighChangeFailure then
    "失敗率" ++ toString r.value ++ "%、基準" ++ toString r.threshold ++ "%以下"
  else if r.type = riskTypeSlowRecovery then
    "平均" ++ goFmt1 ((r.value : ℚ) / 10) ++ "時間、基準" ++ goFmt1 ((r.threshold : ℚ) / 10) ++ "時間以下"
  else if r.type = riskTypeLowFeatureInvestment then
    "機能追加" ++ toString r.value ++ "%、基準" ++ toString r.threshold ++ "%以上"
  else
    toString r.value ++ " / 基準" ++ toString r.threshold

/-- The per-category loop of analyze.calculateCategoryScores: walks the
risks, skipping those of other categories, accumulating the score, the
breakdown, and the worst (most penalizing, first-seen on ties) risk. -/
def categoryLoop (cat : Category) :
    List Risk → ℤ → List ScoreBreakdownItem → ℤ → Option Risk →
    ℤ × List ScoreBreakdownItem × Option Risk
  | [], score, breakdown, _, worstRisk => (score, breakdown, worstRisk)
  | r :: rest, score, breakdown, worstPoints, worstRisk =>
    if RiskType.category r.type ≠ cat then
      categoryLoop cat rest score breakdown worstPoints worstRisk
    else
      let points := penalty r.severity
      let breakdown' := breakdown ++
        [{ label := RiskType.displayName r.type, points := points,
           detail := formatRiskDetail r }]
      if points < worstPoints then
        categoryLoop cat rest (score + points) breakdown' points (some r)
      else
        categoryLoop cat rest (score + points) breakdown' worstPoints worstRisk

/-- The four fixed categories, in the order of
analyze.calculateCategoryScores. -/
def categories : List Category :=
  [categoryVelocity, categoryQuality, categoryTechDebt, categoryHealth]

/-- analyze.calculateCategoryScores: the per-category map, represented
as an association list in the fixed category order (all four keys are
always present and distinct). -/
def calculateCategoryScores (risks : List Risk) :
    List (Category × CategoryScore) :=
  categories.map fun cat =>
    let st :=
      categoryLoop cat risks baseScore
        [{ label := "基本スコア", points := baseScore, detail := "" }] 0 none
    (cat,
     { category := cat,
       score := NewScoreWithBreakdown st.1 st.2.1,
       diagnosis := generateDiagnosis (NewScore st.1) st.2.2 })

/-- analyze.calculateOverallScore: integer mean of the category score
values (Go integer division), 0 for an empty map. -/
def calculateOverallScore (categoryScores : List (Category × CategoryScore)) :
    Score :=
  if categoryScores.length = 0 then NewScore 0
  else
    NewScore (goDiv ((categoryScores.map fun p => p.2.score.value).sum)
      categoryScores.length)

-- ── service.go: the orchestration after data acquisition ─────────

/-- domain.Repository. -/
structure Repository where
  owner : String
  name : String
  deriving Repr, DecidableEq

/-- domain.AnalysisResult. -/
structure AnalysisResult where
  repository : Repository
  period : DateRange
  categoryScores : List (Category × CategoryScore)
  overallScore : Score
  risks : List Risk
  metrics : Metrics
  dailyCommits : List DailyCommit
  largeFiles : List LargeFile
  outdatedDeps : List OutdatedDep
  prDetails : List PRDetail
  contributorDetails : List ContributorDetail
  hourlyCommits : List ℕ
  trends : List TrendDelta
  generatedAt : GoTime

/-- The raw data materialized by the acquisition steps of
Service.Analyze (steps 1 of service.go).  `getPRDetail` and
`getPRReviews` model the per-PR fetches (`none` = the call failed). -/
structure RawInputs where
  commits : List Commit
  contributors : List Contributor
  closedPRs : List PullRequest
  openPRs : List PullRequest
  allIssues : List Issue
  openIssues : List Issue
  files : List File
  dependencies : List Dependency
  releases : List Release
  prevCommits : List Commit
  prevIssues : List Issue
  getPRDetail : Int → Option PullRequest
  getPRReviews : Int → Option (List Review)

/-- The Metrics computed inside Service.Analyze: the calculateMetrics
call fed with the raw entities and the two PR-detail aggregates. -/
def analyzeMetrics (raw : RawInputs) (period : DateRange) : Metrics :=
  let prDetails := buildPRDetails raw.getPRDetail raw.getPRReviews raw.closedPRs
  calculateMetrics
    { commits := raw.commits, contributors := raw.contributors,
      closedPRs := raw.closedPRs, openPRs := raw.openPRs,
      allIssues := raw.allIssues, openIssues := raw.openIssues,
      files := raw.files, releases := raw.releases, period := period,
      avgReviewWaitTime := calcAvgReviewWait prDetails,
      avgPRSize := calcAvgPRSize prDetails }

/-- analyze.Service.Analyze after data acquisition (steps 2-9 of
service.go): pure computation from the raw inputs.  `ord` is the
unspecified iteration order of the change-concentration map and `now`
the `time.Now()` read for GeneratedAt. -/
def Analyze (repository : Repository) (period : DateRange) (raw : RawInputs)
    (ord : List String) (now : GoTime) : AnalysisResult :=
  let prevPeriodDays := period.days
  let prevTo := period.from_ - 86400
  let prevFrom := prevTo - 86400 * prevPeriodDays
  let prevPeriod : DateRange := { from_ := prevFrom, to_ := prevTo }
  let prDetails := buildPRDetails raw.getPRDetail raw.getPRReviews raw.closedPRs
  let dataRisks := (detectRisks raw.commits raw.contributors raw.files ord).1
  let largeFiles := (detectRisks raw.commits raw.contributors raw.files ord).2
  let outdatedRisks := (detectOutdatedDeps raw.dependencies).1
  let outdatedDeps := (detectOutdatedDeps raw.dependencies).2
  let metrics := analyzeMetrics raw period
  let metricRisks := detectMetricRisks metrics
  let risks := dataRisks ++ outdatedRisks ++ metricRisks
  let categoryScores := calculateCategoryScores risks
  let overallScore := calculateOverallScore categoryScores
  let dailyCommits := aggregateDailyCommits raw.commits period
  let contributorDetails := buildContributorDetails raw.contributors
  let hourlyCommits := aggregateHourlyCommits raw.commits
  let trends := calculateTrends metrics raw.prevCommits raw.prevIssues prevPeriod
  { repository := repository, period := period,
    categoryScores := categoryScores, overallScore := overallScore,
    risks := risks, metrics := metrics, dailyCommits := dailyCommits,
    largeFiles := largeFiles, outdatedDeps := outdatedDeps,
    prDetails := prDetails, contributorDetails := contributorDetails,
    hourlyCommits := hourlyCommits, trends := trends, generatedAt := now }

-- ── spec-side helper definitions used by the theorems ────────────

/-- Total severity-weighted penalty contributed to a category by a
list of risks (the spec's "-15 per High, -10 per Medium, -5 per Low
whose type maps to that category"). -/
def penaltySum (cat : Category) (risks : List Risk) : ℤ :=
  ((risks.filter fun r => RiskType.category r.type = cat).map
    fun r => penalty r.severity).sum

/-- Penalty magnitude of a risk (the spec's tie-break quantity). -/
def mag (r : Risk) : ℤ :=
  -(penalty r.severity)

/-- The worst-risk tracking fold of the category-scoring loop in
isolation: running worst points and worst risk (strict improvement
only, so first seen wins on ties). -/
def worstFold : List Risk → ℤ → Option Risk → ℤ × Option Risk
  | [], worstPoints, worstRisk => (worstPoints, worstRisk)
  | r :: rest, worstPoints, worstRisk =>
    let points := penalty r.severity
    if points < worstPoints then worstFold rest points (some r)
    else worstFold rest worstPoints worstRisk

/-- Files in the High bucket of detectLargeFiles. -/
def largeFileHighCount (files : List File) : ℕ :=
  (files.filter fun f => f.size ≥ largeFileCriticalBytes).length

/-- Files in the Medium bucket of detectLargeFiles. -/
def largeFileMediumCount (files : List File) : ℕ :=
  (files.filter fun f =>
    ¬ f.size ≥ largeFileCriticalBytes ∧ f.size ≥ largeFileWarningBytes).length

/-- Dependencies in the High bucket of detectOutdatedDeps. -/
def outdatedHighCount (dependencies : List Dependency) : ℕ :=
  (dependencies.filter fun d => d.ageMonths ≥ outdatedDepCriticalMonths).length

/-- Dependencies in the Medium bucket of detectOutdatedDeps. -/
def outdatedMediumCount (dependencies : List Dependency) : ℕ :=
  (dependencies.filter fun d =>
    ¬ d.ageMonths ≥ outdatedDepCriticalMonths ∧
      d.ageMonths ≥ outdatedDepWarningMonths).length

-- ── concrete instances used by counterexamples and witnesses ─────

/-- Ten commits touching both a.go and b.go: both files reach the
warning change count. -/
def ccCommits : List Commit :=
  List.replicate 10
    { sha := "", author := "", date := 0, message := "",
      files := ["a.go", "b.go"] }

/-- Raw inputs holding only `ccCommits`; every other source is empty
and both per-PR fetches fail. -/
def ccRawInputs : RawInputs :=
  { commits := ccCommits, contributors := [], closedPRs := [], openPRs := [],
    allIssues := [], openIssues := [], files := [], dependencies := [],
    releases := [], prevCommits := [], prevIssues := [],
    getPRDetail := fun _ => none, getPRReviews := fun _ => none }

/-- A 30-day analysis period starting at time 0. -/
def period30 : DateRange :=
  { from_ := 0, to_ := 2592000 }

/-- A release published one day before `period30` starts. -/
def earlyRelease : Release :=
  { id := 1, tagName := "v1", name := "v1", publishedAt := -86400 }

/-- A PR merged exactly one day before it was created. -/
def timeTravelPR : PullRequest :=
  { number := 1, title := "", author := "", headBranch := "",
    createdAt := 0, mergedAt := some (-86400), additions := 0, deletions := 0 }

/-- A PR merged three days after creation. -/
def threeDayPR : PullRequest :=
  { number := 2, title := "", author := "", headBranch := "feature/x",
    createdAt := 0, mergedAt := some 259200, additions := 0, deletions := 0 }

/-- Two quality risks: one Medium, then one High (the High one must be
selected as worst). -/
def twoQualityRisks : List Risk :=
  [{ type := riskTypeLargePR, severity := Severity.medium, target := "",
     description := "", value := 0, threshold := 0 },
   { type := riskTypeHighChangeFailure, severity := Severity.high, target := "",
     description := "", value := 0, threshold := 0 }]

/-- The CategoryScore that `calculateCategoryScores twoQualityRisks`
produces for Quality: 100 − 10 − 15 = 75, diagnosed by the High
change-failure risk. -/
def twoQualityScore : CategoryScore :=
  { category := categoryQuality,
    score := { value := 75,
               breakdown := [⟨"基本スコア", 100, ""⟩, ⟨"PRサイズ超過", -10, ""⟩,
                             ⟨"変更失敗率過多", -15, ""⟩] },
    diagnosis := "変更失敗率が高く、リリース品質に課題があります" }

/-- A Metrics record with every numeric field zero (a quiet repository). -/
def zeroMetrics : Metrics :=
  { totalCommits := 0, featureAdditionRate := 0, avgLeadTime := 0,
    avgReviewWaitTime := 0, openPRCount := 0, openIssueCount := 0,
    bugFixRatio := 0, reworkRate := 0, avgPRSize := 0, issueCloseRate := 0,
    issuesCreated := 0, issuesClosed := 0, featurePRCount := 0,
    bugFixPRCount := 0, otherPRCount := 0, deployFrequency := 0,
    deployFreqRating := "N/A", changeFailureRate := 0,
    changeFailRating := "N/A", mttr := 0, mttrRating := "N/A",
    refactorPRCount := 0, featureRatio := 0, refactorRatio := 0,
    revertCommitCount := 0, revertRate := 0, totalFiles := 0,
    totalContributors := 0, lateNightCommitRate := 0 }

-- ──────────────────────────────────────────────────────────────────
-- Theorems
-- ──────────────────────────────────────────────────────────────────

/-- C7: RiskType.Category() is a total deterministic function mapping
SlowLeadTime, SlowReview, LowDeployFreq and SlowRecovery to Velocity;
ChangeConcentration, LargePR, LowIssueClose, BugFixHigh and
HighChangeFailure to Quality; LargeFile, OutdatedDeps and
LowFeatureInvestment to TechDebt; LateNight and Ownership to Health;
and every other RiskType value to Quality. -/
theorem riskType_category_spec :
    (RiskType.category riskTypeSlowLeadTime = categoryVelocity ∧
     RiskType.category riskTypeSlowReview = categoryVelocity ∧
     RiskType.category riskTypeLowDeployFreq = categoryVelocity ∧
     RiskType.category riskTypeSlowRecovery = categoryVelocity) ∧
    (RiskType.category riskTypeChangeConcentration = categoryQuality ∧
     RiskType.category riskTypeLargePR = categoryQuality ∧
     RiskType.category riskTypeLowIssueClose = categoryQuality ∧
     RiskType.category riskTypeBugFixHigh = categoryQuality ∧
     RiskType.category riskTypeHighChangeFailure = categoryQuality) ∧
    (RiskType.category riskTypeLargeFile = categoryTechDebt ∧
     RiskType.category riskTypeOutdatedDeps = categoryTechDebt ∧
     RiskType.category riskTypeLowFeatureInvestment = categoryTechDebt) ∧
    (RiskType.category riskTypeLateNight = categoryHealth ∧
     RiskType.category riskTypeOwnership = categoryHealth) ∧
    (∀ r : RiskType,
      r ∉ [riskTypeSlowLeadTime, riskTypeSlowReview, riskTypeLowDeployFreq,
           riskTypeSlowRecovery, riskTypeChangeConcentration, riskTypeLargePR,
           riskTypeLowIssueClose, riskTypeBugFixHigh, riskTypeHighChangeFailure,
           riskTypeLargeFile, riskTypeOutdatedDeps, riskTypeLowFeatureInvestment,
           riskTypeLateNight, riskTypeOwnership] →
      RiskType.category r = categoryQuality) := by
  refine ⟨by decide, by decide, by decide, by decide, ?_⟩
  intro r hr
  simp only [List.mem_cons, List.not_mem_nil, or_false, not_or] at hr
  obtain ⟨h1, h2, h3, h4, h5, h6, h7, h8, h9, h10, h11, h12, h13, h14⟩ := hr
  simp [RiskType.category, h1, h2, h3, h4, h5, h6, h7, h8, h9, h10, h11,
    h12, h13, h14]

/-- Witness for C7: the retired risk type string "abandoned" is not in
the mapped list and falls back to Quality. -/
theorem riskType_category_spec_witness :
    ("abandoned" : RiskType) ∉
      [riskTypeSlowLeadTime, riskTypeSlowReview, riskTypeLowDeployFreq,
       riskTypeSlowRecovery, riskTypeChangeConcentration, riskTypeLargePR,
       riskTypeLowIssueClose, riskTypeBugFixHigh, riskTypeHighChangeFailure,
       riskTypeLargeFile, riskTypeOutdatedDeps, riskTypeLowFeatureInvestment,
       riskTypeLateNight, riskTypeOwnership] ∧
    RiskType.category "abandoned" = categoryQuality :=
  ⟨by decide, riskType_category_spec.2.2.2.2 "abandoned" (by decide)⟩

/-- C6: buildTrendDelta computes delta% = (current − previous)/previous
× 100 when previous > 0 and 0 when previous = 0; direction is "same"
iff |delta%| ≤ 5, "up" iff delta% > 5, "down" iff delta% < −5. -/
theorem buildTrendDelta_spec (name : String) (current previous : ℚ) :
    (previous > 0 →
      (buildTrendDelta name current previous).deltaPct =
        (current - previous) / previous * 100) ∧
    (previous = 0 → (buildTrendDelta name current previous).deltaPct = 0) ∧
    ((buildTrendDelta name current previous).direction = "same" ↔
      |(buildTrendDelta name current previous).deltaPct| ≤ 5) ∧
    ((buildTrendDelta name current previous).direction = "up" ↔
      (buildTrendDelta name current previous).deltaPct > 5) ∧
    ((buildTrendDelta name current previous).direction = "down" ↔
      (buildTrendDelta name current previous).deltaPct < -5) := by
  have hd : (buildTrendDelta name current previous).deltaPct =
      if previous > 0 then (current - previous) / previous * 100 else 0 := rfl
  set d : ℚ := (buildTrendDelta name current previous).deltaPct with hdef
  have hdir : (buildTrendDelta name current previous).direction =
      if |d| > 5 then (if d > 0 then "up" else "down") else "same" := rfl
  refine ⟨fun h => by rw [hd, if_pos h],
          fun h => by rw [hd, if_neg (by simp [h])], ?_, ?_, ?_⟩
  · rw [hdir]
    by_cases h5 : |d| ≤ 5
    · rw [if_neg (not_lt.mpr h5)]; simp [h5]
    · rw [if_pos (not_le.mp h5)]
      constructor
      · intro hfalse
        by_cases hp : d > 0
        · rw [if_pos hp] at hfalse; exact absurd hfalse (by decide)
        · rw [if_neg hp] at hfalse; exact absurd hfalse (by decide)
      · intro h; exact absurd h h5
  · rw [hdir]
    by_cases h5 : |d| ≤ 5
    · rw [if_neg (not_lt.mpr h5)]
      constructor
      · intro hfalse; exact absurd hfalse (by decide)
      · intro h; exact absurd (lt_of_lt_of_le h (le_abs_self d)) (not_lt.mpr h5)
    · rw [if_pos (not_le.mp h5)]
      by_cases hp : d > 0
      · rw [if_pos hp]
        simp only [true_iff]
        have : |d| = d := abs_of_pos hp
        rw [this] at h5
        exact not_le.mp h5
      · rw [if_neg hp]
        constructor
        · intro hfalse; exact absurd hfalse (by decide)
        · intro h; exact absurd (lt_trans (by norm_num : (0 : ℚ) < 5) h) hp
  · rw [hdir]
    by_cases h5 : |d| ≤ 5
    · rw [if_neg (not_lt.mpr h5)]
      constructor
      · intro hfalse; exact absurd hfalse (by decide)
      · intro h
        have : (5 : ℚ) < |d| := by
          have := neg_abs_le d
          linarith
        exact absurd this (not_lt.mpr h5)
    · rw [if_pos (not_le.mp h5)]
      by_cases hp : d > 0
      · rw [if_pos hp]
        constructor
        · intro hfalse; exact absurd hfalse (by decide)
        · intro h; exact absurd hp (not_lt.mpr (le_of_lt (lt_trans h (by norm_num))))
      · rw [if_neg hp]
        simp only [true_iff]
        have habs : |d| = -d := abs_of_nonpos (not_lt.mp hp)
        rw [habs] at h5
        have : (5 : ℚ) < -d := not_le.mp h5
        linarith

/-- Witness for C6: previous 10, current 12 gives a +20% delta. -/
theorem buildTrendDelta_spec_witness :
    (0 : ℚ) < 10 ∧
    (buildTrendDelta "コミット数" 12 10).deltaPct = (12 - 10) / 10 * 100 :=
  ⟨by norm_num, (buildTrendDelta_spec "コミット数" 12 10).1 (by norm_num)⟩

/-- Counterexample for C5: a PR whose merge timestamp is set but lies
exactly one day before its creation also yields lead time −1, so
"returns −1 iff MergedAt is nil" fails right-to-left. -/
theorem leadTime_counterexample :
    timeTravelPR.mergedAt ≠ none ∧ PullRequest.leadTime timeTravelPR = -1 := by
  constructor
  · simp [timeTravelPR]
  · norm_num [PullRequest.leadTime, timeTravelPR]

/-- C5 (amended): LeadTime() returns −1 when MergedAt is nil; when
MergedAt is set it returns (MergedAt − CreatedAt) in days, which is
non-negative whenever MergedAt is not before CreatedAt — but a merged
PR whose merge timestamp precedes creation by exactly one day also
returns −1, so −1 alone does not imply an unmerged PR. -/
theorem leadTime_amended (pr : PullRequest) :
    (pr.mergedAt = none → pr.leadTime = -1) ∧
    (∀ m, pr.mergedAt = some m →
      pr.leadTime = ((m - pr.createdAt : ℤ) : ℚ) / 86400 ∧
      (pr.createdAt ≤ m → 0 ≤ pr.leadTime)) := by
  constructor
  · intro h; simp [PullRequest.leadTime, h]
  · intro m hm
    have hval : pr.leadTime = ((m - pr.createdAt : ℤ) : ℚ) / 3600 / 24 := by
      simp [PullRequest.leadTime, hm]
    constructor
    · rw [hval, div_div]; norm_num
    · intro hle
      rw [hval]
      have : (0 : ℚ) ≤ ((m - pr.createdAt : ℤ) : ℚ) := by
        have h0 : (0 : ℤ) ≤ m - pr.createdAt := sub_nonneg.mpr hle
        exact_mod_cast h0
      positivity

/-- Witness for C5: a PR merged three days after creation has lead
time 3 = 259200/86400 ≥ 0. -/
theorem leadTime_amended_witness :
    threeDayPR.mergedAt = some 259200 ∧
    PullRequest.leadTime threeDayPR = ((259200 - threeDayPR.createdAt : ℤ) : ℚ) / 86400 ∧
    0 ≤ PullRequest.leadTime threeDayPR :=
  ⟨rfl, ((leadTime_amended threeDayPR).2 259200 rfl).1,
   ((leadTime_amended threeDayPR).2 259200 rfl).2 (by norm_num [threeDayPR])⟩

/-- Counterexample for C2: a non-empty release list with zero releases
inside the analysis period is rated "Low", not "N/A". -/
theorem deployFrequency_counterexample :
    inPeriodReleaseCount [earlyRelease] period30 = 0 ∧
    calculateDeployFrequency [earlyRelease] period30 = (0, "Low") ∧
    ("Low" : String) ≠ "N/A" := by
  have hcount : inPeriodReleaseCount [earlyRelease] period30 = 0 := by decide
  refine ⟨hcount, ?_, by decide⟩
  have hne : ([earlyRelease] : List Release) ≠ [] := by simp
  simp only [calculateDeployFrequency, if_neg hne, hcount]
  norm_num [doraDeployFreqRating]

/-- C2 (amended): calculateDeployFrequency returns value 0 and rating
"N/A" exactly when the releases list is empty; otherwise the frequency
is the in-period release count divided by period_days/30 (period_days
taken as 1 when 0) and the rating is Elite at ≥30 per month, High at
≥4, Medium at ≥1, and Low below 1 — so a non-empty list with zero
in-period releases is rated Low. -/
theorem deployFrequency_amended (releases : List Release) (period : DateRange) :
    (releases = [] → calculateDeployFrequency releases period = (0, "N/A")) ∧
    (releases ≠ [] →
      calculateDeployFrequency releases period =
        (let days : ℤ := if period.days = 0 then 1 else period.days
         let freq : ℚ := (inPeriodReleaseCount releases period : ℚ) / ((days : ℚ) / 30)
         (freq,
          if freq ≥ 30 then "Elite"
          else if freq ≥ 4 then "High"
          else if freq ≥ 1 then "Medium"
          else "Low"))) := by
  constructor
  · intro h; simp [calculateDeployFrequency, h]
  · intro h; simp [calculateDeployFrequency, h, doraDeployFreqRating]

/-- Witness for C2: one release inside a 30-day period is 1 per month,
rated Medium. -/
theorem deployFrequency_amended_witness :
    calculateDeployFrequency [(⟨1, "v1", "v1", 5⟩ : Release)] period30 =
      ((1 : ℚ), "Medium") := by
  have h := (deployFrequency_amended [(⟨1, "v1", "v1", 5⟩ : Release)]
    period30).2 (by simp)
  rw [h]
  have hdays : period30.days = 30 := by
    have hq : ((2592000 - 0 : ℤ) : ℚ) / 3600 / 24 = 30 := by norm_num
    simp only [DateRange.days, period30, hq, ratTrunc]
    norm_num
  have hcount : inPeriodReleaseCount [(⟨1, "v1", "v1", 5⟩ : Release)]
      period30 = 1 := by decide
  simp only [hdays, hcount]
  norm_num [Prod.ext_iff]

/-- The aggregated risks of detectLargeFiles, spelled out per bucket. -/
theorem detectLargeFiles_risks (files : List File) :
    (detectLargeFiles files).1 =
      (if largeFileHighCount files > 0 then
        [{ type := riskTypeLargeFile, severity := Severity.high,
           target := toString (largeFileHighCount files) ++ "件",
           description := toString (goDiv largeFileCriticalBytes 1024) ++
             "KB以上の巨大ファイルがあります",
           value := (largeFileHighCount files : ℤ),
           threshold := goDiv largeFileCriticalBytes 1024 }]
      else []) ++
      (if largeFileMediumCount files > 0 then
        [{ type := riskTypeLargeFile, severity := Severity.medium,
           target := toString (largeFileMediumCount files) ++ "件",
           description := toString (goDiv largeFileWarningBytes 1024) ++
             "KB以上の大きいファイルがあります",
           value := (largeFileMediumCount files : ℤ),
           threshold := goDiv largeFileWarningBytes 1024 }]
      else []) := rfl

/-- The aggregated risks of detectOutdatedDeps, spelled out per bucket. -/
theorem detectOutdatedDeps_risks (dependencies : List Dependency) :
    (detectOutdatedDeps dependencies).1 =
      (if outdatedHighCount dependencies > 0 then
        [{ type := riskTypeOutdatedDeps, severity := Severity.high,
           target := toString (outdatedHighCount dependencies) ++ "件",
           description := toString (goDiv outdatedDepCriticalMonths 12) ++
             "年以上前の古い依存があります",
           value := (outdatedHighCount dependencies : ℤ),
           threshold := outdatedDepCriticalMonths }]
      else []) ++
      (if outdatedMediumCount dependencies > 0 then
        [{ type := riskTypeOutdatedDeps, severity := Severity.medium,
           target := toString (outdatedMediumCount dependencies) ++ "件",
           description := toString (goDiv outdatedDepWarningMonths 12) ++
             "年以上前の古い依存があります",
           value := (outdatedMediumCount dependencies : ℤ),
           threshold := outdatedDepWarningMonths }]
      else []) := rfl

/-- C9: detectLargeFiles and detectOutdatedDeps each emit at most two
risks — at most one High (≥100KB files / ≥36-month deps) and at most
one Medium (≥50KB files / ≥24-month deps), carrying the bucket count
as value and the cutoff as threshold — while every offending item
appears in the LargeFiles/OutdatedDeps drill-down lists. -/
theorem aggregated_detectors_spec (files : List File)
    (dependencies : List Dependency) :
    (((detectLargeFiles files).1.filter fun r =>
        r.severity = Severity.high).length ≤ 1 ∧
     ((detectLargeFiles files).1.filter fun r =>
        r.severity = Severity.medium).length ≤ 1 ∧
     (detectLargeFiles files).1.length ≤ 2 ∧
     (∀ r ∈ (detectLargeFiles files).1,
        r.type = riskTypeLargeFile ∧
        ((r.severity = Severity.high ∧
            r.value = (largeFileHighCount files : ℤ) ∧ r.threshold = 100) ∨
         (r.severity = Severity.medium ∧
            r.value = (largeFileMediumCount files : ℤ) ∧ r.threshold = 50))) ∧
     (∀ f ∈ files, f.size ≥ largeFileCriticalBytes →
        ({ path := f.path, sizeKB := goDiv f.size 1024,
           severity := Severity.high } : LargeFile) ∈ (detectLargeFiles files).2) ∧
     (∀ f ∈ files, f.size ≥ largeFileWarningBytes →
        ¬ f.size ≥ largeFileCriticalBytes →
        ({ path := f.path, sizeKB := goDiv f.size 1024,
           severity := Severity.medium } : LargeFile) ∈ (detectLargeFiles files).2)) ∧
    (((detectOutdatedDeps dependencies).1.filter fun r =>
        r.severity = Severity.high).length ≤ 1 ∧
     ((detectOutdatedDeps dependencies).1.filter fun r =>
        r.severity = Severity.medium).length ≤ 1 ∧
     (detectOutdatedDeps dependencies).1.length ≤ 2 ∧
     (∀ r ∈ (detectOutdatedDeps dependencies).1,
        r.type = riskTypeOutdatedDeps ∧
        ((r.severity = Severity.high ∧
            r.value = (outdatedHighCount dependencies : ℤ) ∧ r.threshold = 36) ∨
         (r.severity = Severity.medium ∧
            r.value = (outdatedMediumCount dependencies : ℤ) ∧ r.threshold = 24))) ∧
     (∀ d ∈ dependencies, d.ageMonths ≥ outdatedDepCriticalMonths →
        ({ name := d.name, version := d.version, age := formatAge d.ageMonths,
           severity := Severity.high } : OutdatedDep) ∈
          (detectOutdatedDeps dependencies).2) ∧
     (∀ d ∈ dependencies, d.ageMonths ≥ outdatedDepWarningMonths →
        ¬ d.ageMonths ≥ outdatedDepCriticalMonths →
        ({ name := d.name, version := d.version, age := formatAge d.ageMonths,
           severity := Severity.medium } : OutdatedDep) ∈
          (detectOutdatedDeps dependencies).2)) := by
  constructor
  · refine ⟨?_, ?_, ?_, ?_, ?_, ?_⟩
    · rw [detectLargeFiles_risks]
      by_cases h1 : largeFileHighCount files > 0 <;>
        by_cases h2 : largeFileMediumCount files > 0 <;>
        simp [h1, h2]
    · rw [detectLargeFiles_risks]
      by_cases h1 : largeFileHighCount files > 0 <;>
        by_cases h2 : largeFileMediumCount files > 0 <;>
        simp [h1, h2]
    · rw [detectLargeFiles_risks]
      by_cases h1 : largeFileHighCount files > 0 <;>
        by_cases h2 : largeFileMediumCount files > 0 <;>
        simp [h1, h2]
    · intro r hr
      rw [detectLargeFiles_risks] at hr
      simp only [List.mem_append, List.mem_ite_nil_right,
        List.mem_singleton] at hr
      rcases hr with ⟨_, rfl⟩ | ⟨_, rfl⟩
      · exact ⟨rfl, Or.inl ⟨rfl, rfl,
          by show goDiv largeFileCriticalBytes 1024 = 100; decide⟩⟩
      · exact ⟨rfl, Or.inr ⟨rfl, rfl,
          by show goDiv largeFileWarningBytes 1024 = 50; decide⟩⟩
    · intro f hf hsize
      simp only [detectLargeFiles]
      exact List.mem_filterMap.mpr ⟨f, hf, by rw [if_pos hsize]⟩
    · intro f hf hsize hnot
      simp only [detectLargeFiles]
      exact List.mem_filterMap.mpr ⟨f, hf, by rw [if_neg hnot, if_pos hsize]⟩
  · refine ⟨?_, ?_, ?_, ?_, ?_, ?_⟩
    · rw [detectOutdatedDeps_risks]
      by_cases h1 : outdatedHighCount dependencies > 0 <;>
        by_cases h2 : outdatedMediumCount dependencies > 0 <;>
        simp [h1, h2]
    · rw [detectOutdatedDeps_risks]
      by_cases h1 : outdatedHighCount dependencies > 0 <;>
        by_cases h2 : outdatedMediumCount dependencies > 0 <;>
        simp [h1, h2]
    · rw [detectOutdatedDeps_risks]
      by_cases h1 : outdatedHighCount dependencies > 0 <;>
        by_cases h2 : outdatedMediumCount dependencies > 0 <;>
        simp [h1, h2]
    · intro r hr
      rw [detectOutdatedDeps_risks] at hr
      simp only [List.mem_append, List.mem_ite_nil_right,
        List.mem_singleton] at hr
      rcases hr with ⟨_, rfl⟩ | ⟨_, rfl⟩
      · exact ⟨rfl, Or.inl ⟨rfl, rfl,
          by show outdatedDepCriticalMonths = 36; decide⟩⟩
      · exact ⟨rfl, Or.inr ⟨rfl, rfl,
          by show outdatedDepWarningMonths = 24; decide⟩⟩
    · intro d hd hage
      simp only [detectOutdatedDeps]
      exact List.mem_filterMap.mpr ⟨d, hd, by rw [if_pos hage]⟩
    · intro d hd hage hnot
      simp only [detectOutdatedDeps]
      exact List.mem_filterMap.mpr ⟨d, hd, by rw [if_neg hnot, if_pos hage]⟩

/-- Witness for C9: one 120KB file plus one 60KB file and one
40-month-old plus one 30-month-old dependency populate both buckets
and both drill-down lists. -/
theorem aggregated_detectors_spec_witness :
    (({ path := "big.go", sizeKB := 120, severity := Severity.high } : LargeFile) ∈
      (detectLargeFiles [⟨"big.go", 122880⟩, ⟨"mid.go", 61440⟩]).2) ∧
    (({ path := "mid.go", sizeKB := 60, severity := Severity.medium } : LargeFile) ∈
      (detectLargeFiles [⟨"big.go", 122880⟩, ⟨"mid.go", 61440⟩]).2) ∧
    (detectLargeFiles [⟨"big.go", 122880⟩, ⟨"mid.go", 61440⟩]).1.length ≤ 2 ∧
    (({ name := "old", version := "1", age := formatAge 40,
        severity := Severity.high } : OutdatedDep) ∈
      (detectOutdatedDeps [⟨"old", "1", 0, 40, "npm"⟩, ⟨"mid", "2", 0, 30, "npm"⟩]).2) ∧
    (detectOutdatedDeps [⟨"old", "1", 0, 40, "npm"⟩, ⟨"mid", "2", 0, 30, "npm"⟩]).1.length ≤ 2 := by
  have h := aggregated_detectors_spec
    [⟨"big.go", 122880⟩, ⟨"mid.go", 61440⟩]
    [⟨"old", "1", 0, 40, "npm"⟩, ⟨"mid", "2", 0, 30, "npm"⟩]
  refine ⟨?_, ?_, h.1.2.2.1, ?_, h.2.2.2.1⟩
  · exact h.1.2.2.2.2.1 ⟨"big.go", 122880⟩ (by simp) (by decide)
  · exact h.1.2.2.2.2.2 ⟨"mid.go", 61440⟩ (by simp) (by decide) (by decide)
  · exact h.2.2.2.2.2.1 ⟨"old", "1", 0, 40, "npm"⟩ (by simp) (by decide)

/-- The score accumulated by the category loop is the start value plus
the severity-weighted penalties of the risks in the category. -/
theorem categoryLoop_fst (cat : Category) (l : List Risk) (s : ℤ)
    (b : List ScoreBreakdownItem) (w : ℤ) (acc : Option Risk) :
    (categoryLoop cat l s b w acc).1 = s + penaltySum cat l := by
  induction l generalizing s b w acc with
  | nil => simp [categoryLoop, penaltySum]
  | cons r rest ih =>
    by_cases hcat : RiskType.category r.type = cat
    · rw [categoryLoop, if_neg (not_not_intro hcat)]
      have hsum : penaltySum cat (r :: rest) =
          penalty r.severity + penaltySum cat rest := by
        simp [penaltySum, List.filter_cons, hcat]
      by_cases hlt : penalty r.severity < w
      · rw [if_pos hlt, ih, hsum]; ring
      · rw [if_neg hlt, ih, hsum]; ring
    · rw [categoryLoop, if_pos hcat, ih]
      have hsum : penaltySum cat (r :: rest) = penaltySum cat rest := by
        simp [penaltySum, List.filter_cons, hcat]
      rw [hsum]

/-- C1: calculateCategoryScores returns a score for exactly the four
categories Velocity, Quality, TechDebt, Health; each category's score
is the base score 100 plus −15 per High, −10 per Medium and −5 per Low
risk mapping to that category, clamped to [0,100]; the overall score
is the truncated integer mean of the four category score values, and 0
for an empty category map. -/
theorem categoryScores_spec (risks : List Risk) :
    ((calculateCategoryScores risks).map (fun p => (p.1, p.2.score.value)) =
      categories.map fun cat => (cat, clamp (baseScore + penaltySum cat risks))) ∧
    calculateOverallScore (calculateCategoryScores risks) =
      NewScore (goDiv ((categories.map fun cat =>
        clamp (baseScore + penaltySum cat risks)).sum) 4) ∧
    calculateOverallScore [] = NewScore 0 := by
  have hvals : (calculateCategoryScores risks).map (fun p => p.2.score.value) =
      categories.map fun cat => clamp (baseScore + penaltySum cat risks) := by
    unfold calculateCategoryScores
    rw [List.map_map]
    apply List.map_congr_left
    intro cat _
    dsimp [NewScoreWithBreakdown]
    rw [categoryLoop_fst]
  refine ⟨?_, ?_, rfl⟩
  · unfold calculateCategoryScores
    rw [List.map_map]
    apply List.map_congr_left
    intro cat _
    dsimp [NewScoreWithBreakdown]
    rw [categoryLoop_fst]
  · have hlen : (calculateCategoryScores risks).length = 4 := by
      simp [calculateCategoryScores, categories]
    rw [calculateOverallScore, if_neg (by rw [hlen]; decide), hlen, hvals]
    norm_num

/-- A shorter prefix of a common word is a prefix of any longer prefix
of that word. -/
theorem hasPref_trans (p q l : List Char) (hp : hasPref p l = true)
    (hq : hasPref q l = true) (hle : p.length ≤ q.length) :
    hasPref p q = true := by
  induction p generalizing q l with
  | nil => simp [hasPref]
  | cons a ps ih =>
    cases l with
    | nil => simp [hasPref] at hp
    | cons c cs =>
      cases q with
      | nil => simp at hle
      | cons b qs =>
        simp only [hasPref, Bool.and_eq_true, beq_iff_eq] at hp hq ⊢
        obtain ⟨hac, hps⟩ := hp
        obtain ⟨hbc, hqs⟩ := hq
        refine ⟨by rw [hac, hbc], ih qs cs hps hqs ?_⟩
        simpa using hle

/-- Two incompatible prefixes can never both match one word. -/
theorem hasPref_excl {l p q : List Char} (h1 : hasPref p l = true)
    (h2 : hasPref q l = true) (hle : p.length ≤ q.length)
    (hpq : hasPref p q = false) : False := by
  rw [hasPref_trans p q l h1 h2 hle] at hpq
  exact Bool.noConfusion hpq

/-- No branch name is classified both bugfix and feature. -/
theorem bugfix_feature_excl (pr : PullRequest) :
    ¬(pr.isBugFix = true ∧ pr.isFeature = true) := by
  rintro ⟨hb, hf⟩
  simp only [PullRequest.isBugFix, Bool.or_eq_true] at hb
  simp only [PullRequest.isFeature, Bool.or_eq_true] at hf
  rcases hb with (h | h) | h <;> rcases hf with h' | h' <;>
    first
    | exact hasPref_excl h h' (by decide) (by decide)
    | exact hasPref_excl h' h (by decide) (by decide)

/-- No branch name is classified both bugfix and refactor. -/
theorem bugfix_refactor_excl (pr : PullRequest) :
    ¬(pr.isBugFix = true ∧ pr.isRefactor = true) := by
  rintro ⟨hb, hr⟩
  simp only [PullRequest.isBugFix, Bool.or_eq_true] at hb
  simp only [PullRequest.isRefactor, Bool.or_eq_true] at hr
  rcases hb with (h | h) | h <;> rcases hr with (((h' | h') | h') | h') | h' <;>
    first
    | exact hasPref_excl h h' (by decide) (by decide)
    | exact hasPref_excl h' h (by decide) (by decide)

/-- No branch name is classified both feature and refactor. -/
theorem feature_refactor_excl (pr : PullRequest) :
    ¬(pr.isFeature = true ∧ pr.isRefactor = true) := by
  rintro ⟨hf, hr⟩
  simp only [PullRequest.isFeature, Bool.or_eq_true] at hf
  simp only [PullRequest.isRefactor, Bool.or_eq_true] at hr
  rcases hf with h | h <;> rcases hr with (((h' | h') | h') | h') | h' <;>
    first
    | exact hasPref_excl h h' (by decide) (by decide)
    | exact hasPref_excl h' h (by decide) (by decide)

/-- C4: PR classification returns exactly one of feature, bugfix,
refactor, other; the vocabularies are bugfix = fix/, bugfix/, hotfix/,
feature = feature/, feat/, refactor = refactor/, chore/, debt/, ci/,
docs/, matched case-insensitively; the predicates are mutually
exclusive, so the outcome equals the bugfix-before-feature-before-
refactor evaluation order as well (the code checks feature first). -/
theorem classifyPR_spec (pr : PullRequest) :
    pr.isBugFix = (hasPref "fix/".data (lowerChars pr.headBranch) ||
      hasPref "bugfix/".data (lowerChars pr.headBranch) ||
      hasPref "hotfix/".data (lowerChars pr.headBranch)) ∧
    pr.isFeature = (hasPref "feature/".data (lowerChars pr.headBranch) ||
      hasPref "feat/".data (lowerChars pr.headBranch)) ∧
    pr.isRefactor = (hasPref "refactor/".data (lowerChars pr.headBranch) ||
      hasPref "chore/".data (lowerChars pr.headBranch) ||
      hasPref "debt/".data (lowerChars pr.headBranch) ||
      hasPref "ci/".data (lowerChars pr.headBranch) ||
      hasPref "docs/".data (lowerChars pr.headBranch)) ∧
    (classifyPR pr = PRClass.bugfix ↔ pr.isBugFix = true) ∧
    (classifyPR pr = PRClass.feature ↔ pr.isFeature = true) ∧
    (classifyPR pr = PRClass.refactor ↔ pr.isRefactor = true) ∧
    (classifyPR pr = PRClass.other ↔
      pr.isBugFix = false ∧ pr.isFeature = false ∧ pr.isRefactor = false) ∧
    classifyPR pr =
      (if pr.isBugFix then PRClass.bugfix
       else if pr.isFeature then PRClass.feature
       else if pr.isRefactor then PRClass.refactor
       else PRClass.other) := by
  have e1 := bugfix_feature_excl pr
  have e2 := bugfix_refactor_excl pr
  have e3 := feature_refactor_excl pr
  refine ⟨rfl, rfl, rfl, ?_, ?_, ?_, ?_, ?_⟩ <;>
    cases hb : pr.isBugFix <;> cases hf : pr.isFeature <;>
      cases hr2 : pr.isRefactor <;>
      simp [classifyPR, hb, hf, hr2] <;> tauto

/-- Witness for C4: an uppercase Fix/ branch classifies as bugfix. -/
theorem classifyPR_spec_witness :
    classifyPR (⟨1, "", "", "Fix/Login-Bug", 0, none, 0, 0⟩ : PullRequest) =
      PRClass.bugfix :=
  (classifyPR_spec _).2.2.2.1.mpr (by decide)

/-- Change-concentration risks are High or Medium. -/
theorem mem_detectChangeConcentration_severity (commits : List Commit)
    (ord : List String) (r : Risk)
    (h : r ∈ detectChangeConcentration commits ord) :
    r.severity = Severity.medium ∨ r.severity = Severity.high := by
  simp only [detectChangeConcentration, List.mem_flatMap] at h
  obtain ⟨file, -, hm⟩ := h
  split at hm
  · simp only [List.mem_singleton] at hm
    subst hm; right; rfl
  · split at hm
    · simp only [List.mem_singleton] at hm
      subst hm; left; rfl
    · simp at hm

/-- Ownership risks are Medium. -/
theorem mem_detectOwnershipRisk_severity (contributors : List Contributor)
    (r : Risk) (h : r ∈ detectOwnershipRisk contributors) :
    r.severity = Severity.medium ∨ r.severity = Severity.high := by
  unfold detectOwnershipRisk at h
  split at h
  · simp at h
  · dsimp only at h
    split at h
    · simp at h
    · split at h
      · simp only [List.mem_singleton] at h
        subst h; left; rfl
      · simp at h

/-- Late-night risks are Medium. -/
theorem mem_detectLateNightRisk_severity (commits : List Commit)
    (r : Risk) (h : r ∈ detectLateNightRisk commits) :
    r.severity = Severity.medium ∨ r.severity = Severity.high := by
  unfold detectLateNightRisk at h
  split at h
  · simp at h
  · dsimp only at h
    split at h
    · simp only [List.mem_singleton] at h
      subst h; left; rfl
    · simp at h

/-- Aggregated large-file risks are High or Medium. -/
theorem mem_detectLargeFiles_severity (files : List File) (r : Risk)
    (h : r ∈ (detectLargeFiles files).1) :
    r.severity = Severity.medium ∨ r.severity = Severity.high := by
  rw [detectLargeFiles_risks] at h
  simp only [List.mem_append, List.mem_ite_nil_right, List.mem_singleton] at h
  rcases h with ⟨-, rfl⟩ | ⟨-, rfl⟩
  · right; rfl
  · left; rfl

/-- Aggregated outdated-dependency risks are High or Medium. -/
theorem mem_detectOutdatedDeps_severity (dependencies : List Dependency)
    (r : Risk) (h : r ∈ (detectOutdatedDeps dependencies).1) :
    r.severity = Severity.medium ∨ r.severity = Severity.high := by
  rw [detectOutdatedDeps_risks] at h
  simp only [List.mem_append, List.mem_ite_nil_right, List.mem_singleton] at h
  rcases h with ⟨-, rfl⟩ | ⟨-, rfl⟩
  · right; rfl
  · left; rfl

/-- Metric-based risks are Medium, except the High change-failure one. -/
theorem mem_detectMetricRisks_severity (metrics : Metrics) (r : Risk)
    (h : r ∈ detectMetricRisks metrics) :
    r.severity = Severity.medium ∨ r.severity = Severity.high := by
  simp only [detectMetricRisks, List.mem_append, List.mem_ite_nil_right,
    List.mem_singleton] at h
  rcases h with ((((((((h | h) | h) | h) | h) | h) | h) | h) | h) <;>
    obtain ⟨-, rfl⟩ := h <;> simp

/-- C10: every risk produced by the engine's detectors (detectRisks
with its change-concentration, ownership, late-night and large-file
sub-detectors, detectOutdatedDeps, and detectMetricRisks) has severity
Medium or High; SeverityLow is never emitted, so the −5 penalty branch
of category scoring is unreachable for engine-produced risks. -/
theorem engine_risks_never_low (commits : List Commit)
    (contributors : List Contributor) (files : List File)
    (dependencies : List Dependency) (metrics : Metrics) (ord : List String)
    (r : Risk)
    (h : r ∈ (detectRisks commits contributors files ord).1 ∨
         r ∈ (detectOutdatedDeps dependencies).1 ∨
         r ∈ detectMetricRisks metrics) :
    (r.severity = Severity.medium ∨ r.severity = Severity.high) ∧
    r.severity ≠ Severity.low := by
  have hmain : r.severity = Severity.medium ∨ r.severity = Severity.high := by
    rcases h with h | h | h
    · simp only [detectRisks, List.mem_append] at h
      rcases h with ((h | h) | h) | h
      · exact mem_detectChangeConcentration_severity commits ord r h
      · exact mem_detectOwnershipRisk_severity contributors r h
      · exact mem_detectLateNightRisk_severity commits r h
      · exact mem_detectLargeFiles_severity files r h
    · exact mem_detectOutdatedDeps_severity dependencies r h
    · exact mem_detectMetricRisks_severity metrics r h
  refine ⟨hmain, ?_⟩
  rcases hmain with h' | h' <;> rw [h'] <;> simp

/-- Witness for C10: the High aggregated risk for one 120KB file. -/
theorem engine_risks_never_low_witness :
    (({ type := riskTypeLargeFile, severity := Severity.high,
        target := "1件", description := "100KB以上の巨大ファイルがあります",
        value := 1, threshold := 100 } : Risk).severity = Severity.medium ∨
     ({ type := riskTypeLargeFile, severity := Severity.high,
        target := "1件", description := "100KB以上の巨大ファイルがあります",
        value := 1, threshold := 100 } : Risk).severity = Severity.high) ∧
    ({ type := riskTypeLargeFile, severity := Severity.high,
       target := "1件", description := "100KB以上の巨大ファイルがあります",
       value := 1, threshold := 100 } : Risk).severity ≠ Severity.low :=
  engine_risks_never_low [] [] [⟨"big.go", 122880⟩] [] zeroMetrics [] _
    (Or.inl (by decide))

/-- Every severity carries a strictly negative penalty. -/
theorem penalty_neg (s : Severity) : penalty s < 0 := by
  cases s <;> decide

/-- Unfolding worstFold over a cons cell. -/
theorem worstFold_cons (r : Risk) (rest : List Risk) (w : ℤ) (acc : Option Risk) :
    worstFold (r :: rest) w acc =
      if penalty r.severity < w then worstFold rest (penalty r.severity) (some r)
      else worstFold rest w acc := by
  rfl

/-- worstFold over an append runs the blocks in sequence. -/
theorem worstFold_append (B T : List Risk) (w : ℤ) (acc : Option Risk) :
    worstFold (B ++ T) w acc =
      worstFold T (worstFold B w acc).1 (worstFold B w acc).2 := by
  induction B generalizing w acc with
  | nil => simp [worstFold]
  | cons r rest ih =>
    rw [List.cons_append, worstFold_cons, worstFold_cons]
    by_cases hp : penalty r.severity < w
    · rw [if_pos hp, if_pos hp, ih]
    · rw [if_neg hp, if_neg hp, ih]

/-- The running worst points never increase. -/
theorem worstFold_fst_le (l : List Risk) (w : ℤ) (acc : Option Risk) :
    (worstFold l w acc).1 ≤ w := by
  induction l generalizing w acc with
  | nil => simp [worstFold]
  | cons r rest ih =>
    rw [worstFold_cons]
    by_cases hp : penalty r.severity < w
    · rw [if_pos hp]; exact le_trans (ih _ _) (le_of_lt hp)
    · rw [if_neg hp]; exact ih _ _

/-- The final worst points are a fold of min over the penalties. -/
theorem worstFold_fst_foldl (l : List Risk) (w : ℤ) (acc : Option Risk) :
    (worstFold l w acc).1 =
      l.foldl (fun m r => min m (penalty r.severity)) w := by
  induction l generalizing w acc with
  | nil => simp [worstFold]
  | cons r rest ih =>
    rw [worstFold_cons, List.foldl_cons]
    by_cases hp : penalty r.severity < w
    · rw [if_pos hp, ih, min_eq_right (le_of_lt hp)]
    · rw [if_neg hp, ih, min_eq_left (not_lt.mp hp)]

/-- The final worst points ignore the starting accumulator. -/
theorem worstFold_fst_acc (l : List Risk) (w : ℤ) (acc acc' : Option Risk) :
    (worstFold l w acc).1 = (worstFold l w acc').1 := by
  rw [worstFold_fst_foldl, worstFold_fst_foldl]

/-- The final worst points are invariant under permutation of the list. -/
theorem worstFold_fst_perm {l1 l2 : List Risk} (h : l1.Perm l2) (w : ℤ)
    (acc acc' : Option Risk) :
    (worstFold l1 w acc).1 = (worstFold l2 w acc').1 := by
  rw [worstFold_fst_foldl, worstFold_fst_foldl]
  haveI : RightCommutative fun (m : ℤ) (r : Risk) =>
      min m (penalty r.severity) :=
    ⟨fun b a1 a2 => min_right_comm b (penalty a1.severity)
      (penalty a2.severity)⟩
  exact List.Perm.foldl_eq h w

/-- If no strict improvement happened, the accumulator is returned. -/
theorem worstFold_snd_of_fst_eq (l : List Risk) (w : ℤ) (acc : Option Risk)
    (h : (worstFold l w acc).1 = w) : (worstFold l w acc).2 = acc := by
  induction l generalizing w acc with
  | nil => simp [worstFold]
  | cons r rest ih =>
    rw [worstFold_cons] at h ⊢
    by_cases hp : penalty r.severity < w
    · rw [if_pos hp] at h
      have := worstFold_fst_le rest (penalty r.severity) (some r)
      omega
    · rw [if_neg hp] at h ⊢
      exact ih _ _ h

/-- If a strict improvement happened, the result is an element of the
list. -/
theorem worstFold_snd_mem (l : List Risk) (w : ℤ) (acc : Option Risk)
    (h : (worstFold l w acc).1 < w) :
    ∃ r ∈ l, (worstFold l w acc).2 = some r := by
  induction l generalizing w acc with
  | nil => simp [worstFold] at h
  | cons r rest ih =>
    rw [worstFold_cons] at h ⊢
    by_cases hp : penalty r.severity < w
    · rw [if_pos hp] at h ⊢
      rcases eq_or_lt_of_le (worstFold_fst_le rest (penalty r.severity)
        (some r)) with heq | hlt
      · exact ⟨r, List.mem_cons_self r rest,
          worstFold_snd_of_fst_eq rest _ _ heq⟩
      · obtain ⟨r', hr', hs⟩ := ih _ _ hlt
        exact ⟨r', List.mem_cons_of_mem r hr', hs⟩
    · rw [if_neg hp] at h ⊢
      obtain ⟨r', hr', hs⟩ := ih _ _ h
      exact ⟨r', List.mem_cons_of_mem r hr', hs⟩

/-- After a strict improvement the result no longer depends on the
starting accumulator. -/
theorem worstFold_snd_acc (l : List Risk) (w : ℤ) (acc acc' : Option Risk)
    (h : (worstFold l w acc).1 < w) :
    (worstFold l w acc).2 = (worstFold l w acc').2 := by
  induction l generalizing w acc acc' with
  | nil => simp [worstFold] at h
  | cons r rest ih =>
    rw [worstFold_cons] at h ⊢
    rw [worstFold_cons]
    by_cases hp : penalty r.severity < w
    · rw [if_pos hp] at h ⊢
      rw [if_pos hp]
    · rw [if_neg hp] at h ⊢
      rw [if_neg hp]
      exact ih _ _ _ h

/-- The worst points bound every penalty in the list. -/
theorem worstFold_fst_le_pen (l : List Risk) (w : ℤ) (acc : Option Risk)
    (r : Risk) (hr : r ∈ l) :
    (worstFold l w acc).1 ≤ penalty r.severity := by
  induction l generalizing w acc with
  | nil => simp at hr
  | cons x rest ih =>
    rw [worstFold_cons]
    rcases List.mem_cons.mp hr with rfl | hr'
    · by_cases hp : penalty r.severity < w
      · rw [if_pos hp]; exact worstFold_fst_le rest _ _
      · rw [if_neg hp]
        exact le_trans (worstFold_fst_le rest _ _) (not_lt.mp hp)
    · by_cases hp : penalty x.severity < w
      · rw [if_pos hp]; exact ih _ _ hr'
      · rw [if_neg hp]; exact ih _ _ hr'

/-- After a strict improvement the worst risk is the first list element
whose penalty equals the final worst points. -/
theorem worstFold_snd_find (l : List Risk) (w : ℤ) (acc : Option Risk)
    (h : (worstFold l w acc).1 < w) :
    (worstFold l w acc).2 =
      l.find? fun r => penalty r.severity == (worstFold l w acc).1 := by
  induction l generalizing w acc with
  | nil => simp [worstFold] at h
  | cons r rest ih =>
    rw [worstFold_cons] at h ⊢
    by_cases hp : penalty r.severity < w
    · rw [if_pos hp] at h ⊢
      rcases eq_or_lt_of_le (worstFold_fst_le rest (penalty r.severity)
        (some r)) with heq | hlt
      · rw [worstFold_snd_of_fst_eq rest _ _ heq,
          List.find?_cons_of_pos _ (by rw [heq]; exact beq_self_eq_true _)]
      · have hne : penalty r.severity ≠ (worstFold rest (penalty r.severity)
            (some r)).1 := by omega
        rw [ih _ _ hlt,
          List.find?_cons_of_neg _ (by simpa using hne)]
    · rw [if_neg hp] at h ⊢
      have hne : penalty r.severity ≠ (worstFold rest w acc).1 := by omega
      rw [ih _ _ h, List.find?_cons_of_neg _ (by simpa using hne)]

/-- The worst-risk component of the category loop is the worst fold of
the category-filtered risks. -/
theorem categoryLoop_snd (cat : Category) (l : List Risk) (s : ℤ)
    (b : List ScoreBreakdownItem) (w : ℤ) (acc : Option Risk) :
    (categoryLoop cat l s b w acc).2.2 =
      (worstFold (l.filter fun r => RiskType.category r.type = cat) w acc).2 := by
  induction l generalizing s b w acc with
  | nil => simp [categoryLoop, worstFold]
  | cons r rest ih =>
    by_cases hcat : RiskType.category r.type = cat
    · rw [categoryLoop, if_neg (not_not_intro hcat),
        List.filter_cons_of_pos (by simpa using hcat), worstFold_cons]
      by_cases hlt : penalty r.severity < w
      · rw [if_pos hlt, if_pos hlt, ih]
      · rw [if_neg hlt, if_neg hlt, ih]
    · rw [categoryLoop, if_pos hcat,
        List.filter_cons_of_neg (by simpa using hcat), ih]

/-- A score strictly below 80 never grades A. -/
theorem grade_ne_A_of_lt (sc : Score) (h : sc.value < 80) :
    sc.grade ≠ "A" := by
  unfold Score.grade
  rw [if_neg (by omega)]
  split_ifs <;> decide

/-- C8: for each category the selected worst risk is the first risk in
input order whose penalty magnitude strictly exceeds every earlier
category risk's (first-seen wins ties, i.e. the first occurrence of
the maximal magnitude), and the diagnosis is the fixed text for that
risk's type — except that a clamped score ≥ 80 (grade A), or a
category no risk penalized, always yields the generic good-state
diagnosis. -/
theorem worstRisk_diagnosis_spec (risks : List Risk) (cat : Category)
    (cs : CategoryScore) (hmem : (cat, cs) ∈ calculateCategoryScores risks) :
    (cs.score.value ≥ 80 → cs.diagnosis = "良好な状態です") ∧
    ((risks.filter fun r => RiskType.category r.type = cat) = [] →
      cs.diagnosis = "良好な状態です") ∧
    (cs.score.value < 80 →
      ∃ pre worst post,
        risks.filter (fun r => RiskType.category r.type = cat) =
          pre ++ worst :: post ∧
        (∀ r ∈ pre, mag r < mag worst) ∧
        (∀ r ∈ risks.filter fun r => RiskType.category r.type = cat,
          mag r ≤ mag worst) ∧
        cs.diagnosis = diagnosisText worst.type) := by
  simp only [calculateCategoryScores, List.mem_map] at hmem
  obtain ⟨cat', -, heq⟩ := hmem
  rw [Prod.mk.injEq] at heq
  obtain ⟨rfl, hcs⟩ := heq
  subst hcs
  set st := categoryLoop cat' risks baseScore
    [{ label := "基本スコア", points := baseScore, detail := "" }] 0 none with hst
  set F := risks.filter fun r => RiskType.category r.type = cat' with hF
  have hsnd : st.2.2 = (worstFold F 0 none).2 := categoryLoop_snd ..
  have hval : st.1 = baseScore + penaltySum cat' risks := categoryLoop_fst ..
  refine ⟨?_, ?_, ?_⟩
  · intro h80
    have hv : (NewScore st.1).value ≥ 80 := h80
    show generateDiagnosis (NewScore st.1) st.2.2 = "良好な状態です"
    unfold generateDiagnosis
    rw [if_pos (by unfold Score.grade; rw [if_pos hv])]
  · intro hempty
    show generateDiagnosis (NewScore st.1) st.2.2 = "良好な状態です"
    unfold generateDiagnosis
    rw [hsnd, hempty]
    split
    · rfl
    · rfl
  · intro hlt
    have hv : (NewScore st.1).value < 80 := hlt
    have hFne : F ≠ [] := by
      intro hFe
      have hps : penaltySum cat' risks = 0 := by
        unfold penaltySum
        rw [← hF, hFe]
        rfl
      have hv2 : clamp st.1 < 80 := hv
      rw [hval, hps] at hv2
      norm_num [clamp, baseScore] at hv2
    obtain ⟨rhead, hrhead⟩ := List.exists_mem_of_ne_nil F hFne
    have hfstneg : (worstFold F 0 none).1 < 0 := by
      have h1 := worstFold_fst_le_pen F 0 none rhead hrhead
      have h2 := penalty_neg rhead.severity
      omega
    have hfind := worstFold_snd_find F 0 none hfstneg
    obtain ⟨a, -, hsa⟩ := worstFold_snd_mem F 0 none hfstneg
    have hfa : (F.find? fun r => penalty r.severity ==
        (worstFold F 0 none).1) = some a := by
      rw [← hfind, hsa]
    obtain ⟨hpa, pre, post, hFsplit, hpre⟩ := (List.find?_eq_some).mp hfa
    have hpaeq : penalty a.severity = (worstFold F 0 none).1 := by
      simpa using hpa
    refine ⟨pre, a, post, hFsplit, ?_, ?_, ?_⟩
    · intro r hr
      have hrF : r ∈ F := by rw [hFsplit]; exact List.mem_append_left _ hr
      have hle := worstFold_fst_le_pen F 0 none r hrF
      have hner := hpre r hr
      simp only [Bool.not_eq_true', beq_eq_false_iff_ne] at hner
      unfold mag
      omega
    · intro r hr
      have hle := worstFold_fst_le_pen F 0 none r hr
      unfold mag
      omega
    · have hgr : Score.grade (NewScore st.1) ≠ "A" :=
        grade_ne_A_of_lt (NewScore st.1) hv
      show generateDiagnosis (NewScore st.1) st.2.2 = diagnosisText a.type
      unfold generateDiagnosis
      rw [if_neg hgr, hsnd, hsa]

/-- Witness for C8: a Medium then a High quality risk score 75 (< 80)
and the High change-failure risk, the first maximal-magnitude one,
provides the diagnosis. -/
theorem worstRisk_diagnosis_spec_witness :
    ∃ pre worst post,
      twoQualityRisks.filter (fun r => RiskType.category r.type = categoryQuality) =
        pre ++ worst :: post ∧
      (∀ r ∈ pre, mag r < mag worst) ∧
      (∀ r ∈ twoQualityRisks.filter
        fun r => RiskType.category r.type = categoryQuality,
        mag r ≤ mag worst) ∧
      twoQualityScore.diagnosis = diagnosisText worst.type :=
  (worstRisk_diagnosis_spec twoQualityRisks categoryQuality twoQualityScore
    (by decide)).2.2 (by decide)

/-- Change-concentration risks all carry the change-concentration type. -/
theorem mem_detectChangeConcentration_type (commits : List Commit)
    (ord : List String) (r : Risk)
    (h : r ∈ detectChangeConcentration commits ord) :
    r.type = riskTypeChangeConcentration := by
  simp only [detectChangeConcentration, List.mem_flatMap] at h
  obtain ⟨file, -, hm⟩ := h
  split at hm
  · simp only [List.mem_singleton] at hm; subst hm; rfl
  · split at hm
    · simp only [List.mem_singleton] at hm; subst hm; rfl
    · simp at hm

/-- The category penalty total is invariant under permutation. -/
theorem penaltySum_perm {l1 l2 : List Risk} (h : l1.Perm l2) (cat : Category) :
    penaltySum cat l1 = penaltySum cat l2 :=
  List.Perm.sum_eq ((h.filter _).map _)

/-- The diagnosis depends on the worst risk only through its type. -/
theorem generateDiagnosis_congr (s : Score) (w1 w2 : Option Risk)
    (h : Option.map Risk.type w1 = Option.map Risk.type w2) :
    generateDiagnosis s w1 = generateDiagnosis s w2 := by
  cases w1 <;> cases w2 <;> simp only [Option.map] at h
  · rfl
  · exact absurd h (by simp)
  · exact absurd h (by simp)
  · simp only [Option.some.injEq] at h
    unfold generateDiagnosis
    dsimp only
    rw [h]

/-- Permuting a same-typed prefix block of the risk list changes
neither the final worst points nor the worst risk's type. -/
theorem worstFold_block_congr (B1 B2 T : List Risk) (t : RiskType) (w : ℤ)
    (hperm : B1.Perm B2) (htype : ∀ r ∈ B1, r.type = t) :
    (worstFold (B1 ++ T) w none).1 = (worstFold (B2 ++ T) w none).1 ∧
    Option.map Risk.type (worstFold (B1 ++ T) w none).2 =
      Option.map Risk.type (worstFold (B2 ++ T) w none).2 := by
  have hfst : (worstFold B1 w none).1 = (worstFold B2 w none).1 :=
    worstFold_fst_perm hperm w none none
  rw [worstFold_append, worstFold_append, ← hfst]
  constructor
  · exact worstFold_fst_acc T _ _ _
  · rcases eq_or_lt_of_le (worstFold_fst_le B1 w none) with heq | hlt
    · have h1 : (worstFold B1 w none).2 = none :=
        worstFold_snd_of_fst_eq _ _ _ heq
      have h2 : (worstFold B2 w none).2 = none :=
        worstFold_snd_of_fst_eq _ _ _ (by rw [← hfst]; exact heq)
      rw [h1, h2]
    · obtain ⟨r1, hr1, hs1⟩ := worstFold_snd_mem B1 w none hlt
      obtain ⟨r2, hr2, hs2⟩ :=
        worstFold_snd_mem B2 w none (by rw [← hfst]; exact hlt)
      have ht1 : r1.type = t := htype r1 hr1
      have ht2 : r2.type = t := htype r2 (hperm.mem_iff.mpr hr2)
      rcases eq_or_lt_of_le (worstFold_fst_le T ((worstFold B1 w none).1)
        ((worstFold B1 w none).2)) with heqT | hltT
      · have g1 := worstFold_snd_of_fst_eq T _ ((worstFold B1 w none).2) heqT
        have g2 := worstFold_snd_of_fst_eq T _ ((worstFold B2 w none).2)
          (by rw [worstFold_fst_acc T _ ((worstFold B2 w none).2)
            ((worstFold B1 w none).2)]; exact heqT)
        rw [g1, g2, hs1, hs2]
        simp [ht1, ht2]
      · rw [worstFold_snd_acc T _ ((worstFold B1 w none).2)
          ((worstFold B2 w none).2) hltT]

/-- Permuting a same-typed prefix block of the risk list preserves each
category's score value and diagnosis. -/
theorem calculateCategoryScores_block_congr (B1 B2 T : List Risk)
    (t : RiskType) (hperm : B1.Perm B2) (htype : ∀ r ∈ B1, r.type = t) :
    (calculateCategoryScores (B1 ++ T)).map
      (fun p => (p.1, p.2.score.value, p.2.diagnosis)) =
    (calculateCategoryScores (B2 ++ T)).map
      (fun p => (p.1, p.2.score.value, p.2.diagnosis)) := by
  unfold calculateCategoryScores
  rw [List.map_map, List.map_map]
  apply List.map_congr_left
  intro cat _
  dsimp only [Function.comp]
  have hval : (categoryLoop cat (B1 ++ T) baseScore
      [{ label := "基本スコア", points := baseScore, detail := "" }] 0 none).1 =
      (categoryLoop cat (B2 ++ T) baseScore
      [{ label := "基本スコア", points := baseScore, detail := "" }] 0 none).1 := by
    rw [categoryLoop_fst, categoryLoop_fst,
      penaltySum_perm (hperm.append_right T) cat]
  have hworst : Option.map Risk.type (categoryLoop cat (B1 ++ T) baseScore
      [{ label := "基本スコア", points := baseScore, detail := "" }] 0 none).2.2 =
      Option.map Risk.type (categoryLoop cat (B2 ++ T) baseScore
      [{ label := "基本スコア", points := baseScore, detail := "" }] 0 none).2.2 := by
    rw [categoryLoop_snd, categoryLoop_snd, List.filter_append,
      List.filter_append]
    exact (worstFold_block_congr (B1.filter _) (B2.filter _) (T.filter _) t 0
      (hperm.filter _) (fun r hr => htype r (List.mem_of_mem_filter hr))).2
  have hdiag : generateDiagnosis (NewScore (categoryLoop cat (B2 ++ T) baseScore
      [{ label := "基本スコア", points := baseScore, detail := "" }] 0 none).1)
      (categoryLoop cat (B1 ++ T) baseScore
      [{ label := "基本スコア", points := baseScore, detail := "" }] 0 none).2.2 =
      generateDiagnosis (NewScore (categoryLoop cat (B2 ++ T) baseScore
      [{ label := "基本スコア", points := baseScore, detail := "" }] 0 none).1)
      (categoryLoop cat (B2 ++ T) baseScore
      [{ label := "基本スコア", points := baseScore, detail := "" }] 0 none).2.2 :=
    generateDiagnosis_congr _ _ _ hworst
  rw [hval, hdiag]
  simp [NewScoreWithBreakdown]

/-- The Risks field of the orchestration result, spelled out: the
change-concentration block (in map order) followed by the order-free
detectors. -/
theorem Analyze_risks (repository : Repository) (period : DateRange)
    (raw : RawInputs) (ord : List String) (now : GoTime) :
    (Analyze repository period raw ord now).risks =
      detectChangeConcentration raw.commits ord ++
      detectOwnershipRisk raw.contributors ++
      detectLateNightRisk raw.commits ++
      (detectLargeFiles raw.files).1 ++
      (detectOutdatedDeps raw.dependencies).1 ++
      detectMetricRisks (analyzeMetrics raw period) := rfl

/-- The CategoryScores field of the orchestration result. -/
theorem Analyze_categoryScores (repository : Repository) (period : DateRange)
    (raw : RawInputs) (ord : List String) (now : GoTime) :
    (Analyze repository period raw ord now).categoryScores =
      calculateCategoryScores
        (detectChangeConcentration raw.commits ord ++
         detectOwnershipRisk raw.contributors ++
         detectLateNightRisk raw.commits ++
         (detectLargeFiles raw.files).1 ++
         (detectOutdatedDeps raw.dependencies).1 ++
         detectMetricRisks (analyzeMetrics raw period)) := rfl

/-- The OverallScore field of the orchestration result. -/
theorem Analyze_overallScore (repository : Repository) (period : DateRange)
    (raw : RawInputs) (ord : List String) (now : GoTime) :
    (Analyze repository period raw ord now).overallScore =
      calculateOverallScore (calculateCategoryScores
        (detectChangeConcentration raw.commits ord ++
         detectOwnershipRisk raw.contributors ++
         detectLateNightRisk raw.commits ++
         (detectLargeFiles raw.files).1 ++
         (detectOutdatedDeps raw.dependencies).1 ++
         detectMetricRisks (analyzeMetrics raw period))) := rfl

/-- The overall score only depends on the score values and the count. -/
theorem calculateOverallScore_congr (cs1 cs2 : List (Category × CategoryScore))
    (hlen : cs1.length = cs2.length)
    (hv : cs1.map (fun p => p.2.score.value) =
      cs2.map (fun p => p.2.score.value)) :
    calculateOverallScore cs1 = calculateOverallScore cs2 := by
  unfold calculateOverallScore
  rw [hlen, hv]

/-- C3 (amended): for fixed raw inputs, Analyze is deterministic up to
Go's unspecified map-iteration order in detectChangeConcentration: any
two invocations agree on every field except GeneratedAt and the
ordering of the Risks list (with the induced ordering of score
breakdown lines); the risks agree as a multiset, and all metrics,
category score values, diagnoses and the overall score coincide. -/
theorem analyze_deterministic_up_to_order (repository : Repository)
    (period : DateRange) (raw : RawInputs) (ord1 ord2 : List String)
    (now1 now2 : GoTime) (h1 : IsMapOrder raw.commits ord1)
    (h2 : IsMapOrder raw.commits ord2) :
    (Analyze repository period raw ord1 now1).repository =
      (Analyze repository period raw ord2 now2).repository ∧
    (Analyze repository period raw ord1 now1).period =
      (Analyze repository period raw ord2 now2).period ∧
    (Analyze repository period raw ord1 now1).risks.Perm
      (Analyze repository period raw ord2 now2).risks ∧
    (Analyze repository period raw ord1 now1).metrics =
      (Analyze repository period raw ord2 now2).metrics ∧
    (Analyze repository period raw ord1 now1).categoryScores.map
        (fun p => (p.1, p.2.score.value, p.2.diagnosis)) =
      (Analyze repository period raw ord2 now2).categoryScores.map
        (fun p => (p.1, p.2.score.value, p.2.diagnosis)) ∧
    (Analyze repository period raw ord1 now1).overallScore =
      (Analyze repository period raw ord2 now2).overallScore ∧
    (Analyze repository period raw ord1 now1).dailyCommits =
      (Analyze repository period raw ord2 now2).dailyCommits ∧
    (Analyze repository period raw ord1 now1).largeFiles =
      (Analyze repository period raw ord2 now2).largeFiles ∧
    (Analyze repository period raw ord1 now1).outdatedDeps =
      (Analyze repository period raw ord2 now2).outdatedDeps ∧
    (Analyze repository period raw ord1 now1).prDetails =
      (Analyze repository period raw ord2 now2).prDetails ∧
    (Analyze repository period raw ord1 now1).contributorDetails =
      (Analyze repository period raw ord2 now2).contributorDetails ∧
    (Analyze repository period raw ord1 now1).hourlyCommits =
      (Analyze repository period raw ord2 now2).hourlyCommits ∧
    (Analyze repository period raw ord1 now1).trends =
      (Analyze repository period raw ord2 now2).trends := by
  have hperm12 : ord1.Perm ord2 := h1.trans h2.symm
  have hccperm : (detectChangeConcentration raw.commits ord1).Perm
      (detectChangeConcentration raw.commits ord2) := by
    unfold detectChangeConcentration
    exact List.Perm.flatMap_right _ hperm12
  have hcctype : ∀ r ∈ detectChangeConcentration raw.commits ord1,
      r.type = riskTypeChangeConcentration :=
    fun r hr => mem_detectChangeConcentration_type _ _ _ hr
  have htr : (calculateCategoryScores
      (detectChangeConcentration raw.commits ord1 ++
       detectOwnershipRisk raw.contributors ++
       detectLateNightRisk raw.commits ++
       (detectLargeFiles raw.files).1 ++
       (detectOutdatedDeps raw.dependencies).1 ++
       detectMetricRisks (analyzeMetrics raw period))).map
        (fun p => (p.1, p.2.score.value, p.2.diagnosis)) =
      (calculateCategoryScores
      (detectChangeConcentration raw.commits ord2 ++
       detectOwnershipRisk raw.contributors ++
       detectLateNightRisk raw.commits ++
       (detectLargeFiles raw.files).1 ++
       (detectOutdatedDeps raw.dependencies).1 ++
       detectMetricRisks (analyzeMetrics raw period))).map
        (fun p => (p.1, p.2.score.value, p.2.diagnosis)) := by
    simp only [List.append_assoc]
    exact calculateCategoryScores_block_congr _ _ _
      riskTypeChangeConcentration hccperm hcctype
  refine ⟨rfl, rfl, ?_, rfl, ?_, ?_, rfl, rfl, rfl, rfl, rfl, rfl, rfl⟩
  · rw [Analyze_risks, Analyze_risks]
    exact ((((hccperm.append_right _).append_right _).append_right
      _).append_right _).append_right _
  · rw [Analyze_categoryScores, Analyze_categoryScores]
    exact htr
  · rw [Analyze_overallScore, Analyze_overallScore]
    refine calculateOverallScore_congr _ _ ?_ ?_
    · have := congrArg List.length htr
      simpa using this
    · have := congrArg (List.map
        (fun x : Category × ℤ × String => x.2.1)) htr
      simpa [List.map_map, Function.comp] using this

/-- Counterexample for C3: with ten commits touching both a.go and
b.go, the two admissible iteration orders of the file-change map give
Risks lists in different orders, so the orchestration result is not
identical across invocations even with GeneratedAt fixed. -/
theorem analyze_order_counterexample :
    IsMapOrder ccRawInputs.commits ["a.go", "b.go"] ∧
    IsMapOrder ccRawInputs.commits ["b.go", "a.go"] ∧
    (Analyze ⟨"o", "r"⟩ period30 ccRawInputs ["a.go", "b.go"] 0).risks ≠
      (Analyze ⟨"o", "r"⟩ period30 ccRawInputs ["b.go", "a.go"] 0).risks := by
  have hchanged : changedFiles ccRawInputs.commits = ["a.go", "b.go"] := by
    decide
  refine ⟨?_, ?_, ?_⟩
  · show (["a.go", "b.go"] : List String).Perm (changedFiles ccRawInputs.commits)
    rw [hchanged]
  · show (["b.go", "a.go"] : List String).Perm (changedFiles ccRawInputs.commits)
    rw [hchanged]
    exact List.Perm.swap "a.go" "b.go" []
  · rw [Analyze_risks, Analyze_risks]
    have hA : detectChangeConcentration ccRawInputs.commits ["a.go", "b.go"] =
        [NewRisk riskTypeChangeConcentration Severity.medium "a.go" 10 10,
         NewRisk riskTypeChangeConcentration Severity.medium "b.go" 10 10] := by
      decide
    have hB : detectChangeConcentration ccRawInputs.commits ["b.go", "a.go"] =
        [NewRisk riskTypeChangeConcentration Severity.medium "b.go" 10 10,
         NewRisk riskTypeChangeConcentration Severity.medium "a.go" 10 10] := by
      decide
    rw [hA, hB]
    intro h
    simp only [List.cons_append, List.nil_append] at h
    injection h with hhead _
    exact absurd hhead (by decide)

/-- Witness for C3 (amended): the two orders above produce permuted
Risks lists. -/
theorem analyze_deterministic_up_to_order_witness :
    (Analyze ⟨"o", "r"⟩ period30 ccRawInputs ["a.go", "b.go"] 0).risks.Perm
      (Analyze ⟨"o", "r"⟩ period30 ccRawInputs ["b.go", "a.go"] 5).risks :=
  (analyze_deterministic_up_to_order ⟨"o", "r"⟩ period30 ccRawInputs
    ["a.go", "b.go"] ["b.go", "a.go"] 0 5
    (by show (["a.go", "b.go"] : List String).Perm
          (changedFiles ccRawInputs.commits)
        rw [show changedFiles ccRawInputs.commits = ["a.go", "b.go"] from
          by decide])
    (by show (["b.go", "a.go"] : List String).Perm
          (changedFiles ccRawInputs.commits)
        rw [show changedFiles ccRawInputs.commits = ["a.go", "b.go"] from
          by decide]
        exact List.Perm.swap "a.go" "b.go" [])).2.2.1

end Lokup
